import Mathlib

/-!
Verification model of the OnboardBot result-aggregation pipeline.

The definitions below are shallow embeddings of the JavaScript sources:
`src/agents/repo-analyzer.js`, `src/agents/docs-fetcher.js`,
`src/agents/teams-gatherer.js`, `src/agents/guide-generator.js`,
`src/agents/onboardbot.js`, `src/config/constants.js` and the demo session
in `src/index.js`.  Asynchronous calls that may reject are modelled in the
`Except String` monad (a rejection carries the error message); the chat
session boundary is a function from the prompt to `Except String String`
(the reply message).  JavaScript `JSON.parse` is modelled by an executable
recursive-descent parser over `List Char`; numbers keep their source
lexeme, since every comparison made in this development is between parses
of identical lexemes.
-/

set_option maxHeartbeats 1000000
set_option maxRecDepth 8000

namespace OnboardBot

mutual

/-- JSON values as produced by JavaScript `JSON.parse`.  Object members are
kept in source order; duplicate keys do not occur in any input considered
here.  The element and member sequences are mutual inductives (rather than
`List` nesting) so that equality is decidable and all functions on values
are executable. -/
inductive Json where
  | null : Json
  | bool (b : Bool) : Json
  | num (lexeme : String) : Json
  | str (s : String) : Json
  | arr (elems : JsonList) : Json
  | obj (members : JsonMembers) : Json
deriving DecidableEq

/-- Sequence of JSON array elements. -/
inductive JsonList where
  | nil : JsonList
  | cons (head : Json) (tail : JsonList) : JsonList
deriving DecidableEq

/-- Sequence of JSON object members. -/
inductive JsonMembers where
  | nil : JsonMembers
  | cons (key : String) (value : Json) (tail : JsonMembers) : JsonMembers
deriving DecidableEq

end

/-- Build a `JsonList` from a list. -/
def jlist : List Json → JsonList
  | [] => .nil
  | x :: rest => .cons x (jlist rest)

/-- Convert a `JsonList` back to a list. -/
def JsonList.toList : JsonList → List Json
  | .nil => []
  | .cons x tail => x :: tail.toList

/-- Build `JsonMembers` from a list of pairs. -/
def jmembers : List (String × Json) → JsonMembers
  | [] => .nil
  | (k, v) :: rest => .cons k v (jmembers rest)

/-- JSON array value from a list of elements. -/
def Json.arrOf (xs : List Json) : Json :=
  .arr (jlist xs)

/-- JSON object value from a list of members. -/
def Json.objOf (ms : List (String × Json)) : Json :=
  .obj (jmembers ms)

/-- Test whether `p` is a prefix of `s` (character lists). -/
def prefixTest : List Char → List Char → Bool
  | a :: as, b :: bs => a = b && prefixTest as bs
  | [], _ => true
  | _, [] => false

/-- Test whether `needle` occurs as a contiguous substring of `hay`;
this is the semantics of JavaScript `String.prototype.includes`. -/
def containsChars (needle : List Char) : List Char → Bool
  | [] => prefixTest needle []
  | c :: rest => prefixTest needle (c :: rest) || containsChars needle rest

/-- JavaScript `hay.includes(needle)`. -/
def strIncludes (hay needle : String) : Bool :=
  containsChars needle.data hay.data

/-- JavaScript `String.prototype.replace` with a plain-string pattern
replaces only the first occurrence; all call sites in this repository use
the empty string as replacement. -/
def removeFirstChars (pat : List Char) : List Char → List Char
  | [] => []
  | c :: rest =>
    if prefixTest pat (c :: rest) then (c :: rest).drop pat.length
    else c :: removeFirstChars pat rest

/-- JavaScript `s.replace(pat, "")` for string patterns. -/
def removeFirstStr (s pat : String) : String :=
  String.mk (removeFirstChars pat.data s.data)

/-- JavaScript `toLowerCase` (the data handled here is ASCII). -/
def lowerStr (s : String) : String :=
  String.mk (s.data.map Char.toLower)

/-- Spread of a JavaScript `Set` built from a list (`[...new Set(l)]`):
the distinct elements in first-occurrence order. -/
def jsSetDedupAux (seen : List String) : List String → List String
  | [] => []
  | x :: rest =>
    if x ∈ seen then jsSetDedupAux seen rest
    else x :: jsSetDedupAux (x :: seen) rest

/-- First-occurrence deduplication, as `[...new Set(l)]`. -/
def jsSetDedup (l : List String) : List String :=
  jsSetDedupAux [] l

/-- Number of occurrences of `x` in `l`. -/
def countOcc (x : String) (l : List String) : Nat :=
  (l.filter (fun y => y = x)).length

/-! JSON parsing (model of `JSON.parse`). -/

/-- JSON insignificant whitespace. -/
def isJsonWs (c : Char) : Bool :=
  c = ' ' || c = '\t' || c = '\n' || c = '\r'

/-- Drop leading JSON whitespace. -/
def skipWs : List Char → List Char
  | [] => []
  | c :: rest => if isJsonWs c then skipWs rest else c :: rest

/-- Maximal leading run of decimal digits. -/
def takeDigits : List Char → (List Char × List Char)
  | [] => ([], [])
  | c :: rest =>
    if c.isDigit then
      let (ds, r) := takeDigits rest
      (c :: ds, r)
    else ([], c :: rest)

/-- Hexadecimal digit value (code points 0-9, a-f, A-F). -/
def hexVal (c : Char) : Option Nat :=
  let n := c.toNat
  if 48 ≤ n && n ≤ 57 then some (n - 48)
  else if 97 ≤ n && n ≤ 102 then some (n - 87)
  else if 65 ≤ n && n ≤ 70 then some (n - 55)
  else none

/-- Body of a JSON string after the opening quote: returns the decoded
characters and the input following the closing quote.  Unescaped control
characters are rejected, as in `JSON.parse`. -/
def parseStringBody : List Char → Option (List Char × List Char)
  | [] => none
  | '"' :: rest => some ([], rest)
  | '\\' :: e :: rest =>
    match e, rest with
    | '"', r => (parseStringBody r).map (fun (cs, t) => ('"' :: cs, t))
    | '\\', r => (parseStringBody r).map (fun (cs, t) => ('\\' :: cs, t))
    | '/', r => (parseStringBody r).map (fun (cs, t) => ('/' :: cs, t))
    | 'b', r => (parseStringBody r).map (fun (cs, t) => ('\x08' :: cs, t))
    | 'f', r => (parseStringBody r).map (fun (cs, t) => ('\x0c' :: cs, t))
    | 'n', r => (parseStringBody r).map (fun (cs, t) => ('\n' :: cs, t))
    | 'r', r => (parseStringBody r).map (fun (cs, t) => ('\r' :: cs, t))
    | 't', r => (parseStringBody r).map (fun (cs, t) => ('\t' :: cs, t))
    | 'u', h1 :: h2 :: h3 :: h4 :: r =>
      match hexVal h1, hexVal h2, hexVal h3, hexVal h4 with
      | some a, some b, some c, some d =>
        let code := ((a * 16 + b) * 16 + c) * 16 + d
        (parseStringBody r).map (fun (cs, t) => (Char.ofNat code :: cs, t))
      | _, _, _, _ => none
    | _, _ => none
  | c :: rest =>
    if c.toNat < 32 then none
    else (parseStringBody rest).map (fun (cs, t) => (c :: cs, t))

/-- JSON number lexeme starting at the head of the input: returns the
lexeme and the rest.  Grammar: `-?(0|[1-9][0-9]*)(\.[0-9]+)?([eE][+-]?[0-9]+)?`. -/
def parseNumber (s : List Char) : Option (List Char × List Char) := do
  let (sign, s1) := match s with
    | '-' :: r => (['-'], r)
    | _ => (([] : List Char), s)
  let (ip, s2) ← match s1 with
    | '0' :: r => some ((['0'] : List Char), r)
    | c :: r =>
      if c.isDigit then
        let (ds, rest) := takeDigits r
        some (c :: ds, rest)
      else none
    | [] => none
  let (fp, s3) ← match s2 with
    | '.' :: r =>
      let (ds, rest) := takeDigits r
      if ds.isEmpty then none else some ('.' :: ds, rest)
    | _ => some (([] : List Char), s2)
  let (ep, s4) ← match s3 with
    | c :: r =>
      if c = 'e' || c = 'E' then
        let (es, r2) := match r with
          | '+' :: r2 => (['+'], r2)
          | '-' :: r2 => (['-'], r2)
          | _ => (([] : List Char), r)
        let (ds, rest) := takeDigits r2
        if ds.isEmpty then none else some (c :: (es ++ ds), rest)
      else some (([] : List Char), s3)
    | [] => some (([] : List Char), s3)
  pure (sign ++ ip ++ fp ++ ep, s4)

mutual

/-- Parse one JSON value (fuel-indexed recursive descent). -/
def parseVal : Nat → List Char → Option (Json × List Char)
  | 0, _ => none
  | fuel + 1, s =>
    match skipWs s with
    | [] => none
    | c :: r =>
      if c = 'n' then
        if r.take 3 = ['u', 'l', 'l'] then some (.null, r.drop 3) else none
      else if c = 't' then
        if r.take 3 = ['r', 'u', 'e'] then some (.bool true, r.drop 3) else none
      else if c = 'f' then
        if r.take 4 = ['a', 'l', 's', 'e'] then some (.bool false, r.drop 4) else none
      else if c = '"' then
        (parseStringBody r).map (fun (cs, t) => (.str (String.mk cs), t))
      else if c = '[' then
        match skipWs r with
        | ']' :: r2 => some (Json.arrOf [], r2)
        | r2 => (parseElems fuel r2).map (fun (xs, t) => (Json.arrOf xs, t))
      else if c = '{' then
        match skipWs r with
        | '}' :: r2 => some (Json.objOf [], r2)
        | r2 => (parseMembers fuel r2).map (fun (ms, t) => (Json.objOf ms, t))
      else if c = '-' || c.isDigit then
        (parseNumber (c :: r)).map (fun (lex, t) => (.num (String.mk lex), t))
      else none

/-- Parse the elements of a non-empty JSON array up to the closing bracket. -/
def parseElems : Nat → List Char → Option (List Json × List Char)
  | 0, _ => none
  | fuel + 1, s => do
    let (v, r1) ← parseVal fuel s
    match skipWs r1 with
    | ',' :: r2 => (parseElems fuel r2).map (fun (xs, t) => (v :: xs, t))
    | ']' :: r2 => some ([v], r2)
    | _ => none

/-- Parse the members of a non-empty JSON object up to the closing brace. -/
def parseMembers : Nat → List Char → Option (List (String × Json) × List Char)
  | 0, _ => none
  | fuel + 1, s =>
    match skipWs s with
    | '"' :: r => do
      let (key, r1) ← parseStringBody r
      match skipWs r1 with
      | ':' :: r2 => do
        let (v, r3) ← parseVal fuel r2
        match skipWs r3 with
        | ',' :: r4 => (parseMembers fuel r4).map (fun (ms, t) => ((String.mk key, v) :: ms, t))
        | '}' :: r4 => some ([(String.mk key, v)], r4)
        | _ => none
      | _ => none
    | _ => none

end

/-- Model of `JSON.parse`: `none` means the JavaScript call throws.  The
fuel `2 * length + 2` dominates the recursion depth, which grows by at
most two per consumed character. -/
def jsonParse (s : String) : Option Json :=
  match parseVal (2 * s.length + 2) s.data with
  | some (v, rest) => if (skipWs rest).isEmpty then some v else none
  | none => none

/-! Regex matching as used by the response-extraction sites.  The array
sites use `/\[[\s\S]*?\]/` (lazy: the match runs from the first `[` to the
first `]` after it); the norms site uses `/\{[\s\S]*\}/` (greedy: from the
first `{` to the last `}`).  If the first opening bracket has no closing
bracket after it, no later starting position can succeed either, so the
whole match fails. -/

/-- Everything up to and including the first `]`, or `none`. -/
def takeThroughRBracket : List Char → Option (List Char)
  | [] => none
  | c :: rest =>
    if c = ']' then some [c]
    else (takeThroughRBracket rest).map (c :: ·)

/-- First match of `/\[[\s\S]*?\]/` in the input, or `none`. -/
def lazyBracketMatch : List Char → Option (List Char)
  | [] => none
  | c :: rest =>
    if c = '[' then (takeThroughRBracket rest).map ('[' :: ·)
    else lazyBracketMatch rest

/-- Everything up to and including the last `}`, or `none`. -/
def takeThroughLastRBrace : List Char → Option (List Char)
  | [] => none
  | c :: rest =>
    match takeThroughLastRBrace rest with
    | some t => some (c :: t)
    | none => if c = '}' then some [c] else none

/-- First match of `/\{[\s\S]*\}/` in the input, or `none`. -/
def greedyBraceMatch : List Char → Option (List Char)
  | [] => none
  | c :: rest =>
    if c = '{' then (takeThroughLastRBrace rest).map ('{' :: ·)
    else greedyBraceMatch rest

/-- Array-shape response extraction, the body shared by every array-shape
call site:

`const match = msg.match(/\[[\s\S]*?\]/); return match ? JSON.parse(match[0]) : [];`

wrapped in `try \x7b ... \x7d catch \x7b return parseErrFallback; \x7d`.
Note that the no-match case returns the literal `[]` of the ternary, while
only a `JSON.parse` throw reaches the catch fallback; the two coincide
(`[]`) at every site except `getKeyDocuments`. -/
def extractArrayJs (msg : String) (parseErrFallback : Json) : Json :=
  match lazyBracketMatch msg.data with
  | none => Json.arrOf []
  | some sub =>
    match jsonParse (String.mk sub) with
    | some v => v
    | none => parseErrFallback

/-- Default team norms returned by `getDefaultNorms()` in
`teams-gatherer.js`. -/
def getDefaultNorms : Json :=
  Json.objOf
    [ ("communicationChannels",
        Json.arrOf [Json.str "Ask your team lead for relevant Teams channels"]),
      ("meetingCadence", Json.str "Check your calendar for recurring team meetings"),
      ("codeReviewProcess", Json.str "Check CONTRIBUTING.md in the repo"),
      ("deploymentProcess", Json.str "Check CI/CD workflows in .github/workflows/"),
      ("otherNorms",
        Json.arrOf [Json.str "Introduce yourself in the team channel on your first day!"]) ]

/-- Object-shape response extraction used by `getTeamNorms`:
match `/\{[\s\S]*\}/`, parse it, and fall back to `getDefaultNorms()` on a
missing match or a parse error. -/
def extractNormsJs (msg : String) : Json :=
  match greedyBraceMatch msg.data with
  | none => getDefaultNorms
  | some sub =>
    match jsonParse (String.mk sub) with
    | some v => v
    | none => getDefaultNorms

/-! Constants from `src/config/constants.js`. -/

/-- Analysis limit `MAX_FILES_TO_ANALYZE`. -/
def MAX_FILES_TO_ANALYZE : Nat := 20

/-- Analysis limit `MAX_DISCUSSIONS_TO_FETCH`. -/
def MAX_DISCUSSIONS_TO_FETCH : Nat := 10

/-- Analysis limit `MAX_ISSUES_TO_FETCH`. -/
def MAX_ISSUES_TO_FETCH : Nat := 15

/-- Analysis limit `MAX_PRS_TO_FETCH`. -/
def MAX_PRS_TO_FETCH : Nat := 10

/-- Default of `OUTPUT_DIR` (`process.env.OUTPUT_DIR || "./onboarding-guides"`);
the configured output directory is passed as a parameter below. -/
def OUTPUT_DIR_DEFAULT : String := "./onboarding-guides"

/-- File patterns `ARCHITECTURE_FILES`. -/
def ARCHITECTURE_FILES : List String :=
  [ "README.md", "CONTRIBUTING.md", "ARCHITECTURE.md", "docs/", "package.json",
    "requirements.txt", "Cargo.toml", "go.mod", "pom.xml", "build.gradle",
    "Makefile", "Dockerfile", "docker-compose.yml", "docker-compose.yaml",
    ".github/workflows/", "tsconfig.json", "pyproject.toml", "setup.py",
    ".eslintrc", ".prettierrc", "jest.config", "vitest.config" ]

/-- Tech-stack detection table `TECH_PATTERNS` (entries in source order, as
iterated by `Object.entries`). -/
def TECH_PATTERNS : List (String × List String) :=
  [ ("Node.js / JavaScript", ["package.json", "node_modules", ".nvmrc"]),
    ("TypeScript", ["tsconfig.json", "*.ts", "*.tsx"]),
    ("Python", ["requirements.txt", "pyproject.toml", "setup.py", "Pipfile"]),
    ("Rust", ["Cargo.toml", "*.rs"]),
    ("Go", ["go.mod", "go.sum", "*.go"]),
    ("Java", ["pom.xml", "build.gradle", "*.java"]),
    ("C# / .NET", ["*.csproj", "*.sln", "Program.cs"]),
    ("Docker", ["Dockerfile", "docker-compose.yml"]),
    ("Kubernetes", ["k8s/", "*.yaml"]),
    ("React", ["react", "jsx", "tsx"]),
    ("Next.js", ["next.config"]),
    ("Azure Functions", ["host.json", "function.json"]),
    ("Terraform", ["*.tf", "terraform/"]),
    ("Bicep", ["*.bicep", "main.bicep"]) ]

/-! JavaScript string conversion used by `Array.prototype.join`. -/

mutual

/-- JavaScript `String(v)` for a parsed JSON value.  Number values display
their source lexeme (JavaScript would canonicalise, e.g. `1.50` to `1.5`;
no input considered here has a non-canonical lexeme). -/
def jsDisplay : Json → String
  | .null => "null"
  | .bool true => "true"
  | .bool false => "false"
  | .num lex => lex
  | .str s => s
  | .arr xs => jsJoinComma xs
  | .obj _ => "[object Object]"

/-- JavaScript `array.join(",")`, the conversion applied to nested arrays
by `String(·)`: `null` (and `undefined`) elements become the empty string,
other elements are converted with `String(·)`. -/
def jsJoinComma : JsonList → String
  | .nil => ""
  | .cons x .nil =>
    (match x with
     | .null => ""
     | v => jsDisplay v)
  | .cons x tail =>
    (match x with
     | .null => ""
     | v => jsDisplay v) ++ "," ++ jsJoinComma tail

end

/-- One element of a JavaScript `Array.prototype.join`. -/
def jsJoinElem : Json → String
  | .null => ""
  | v => jsDisplay v

/-- JavaScript `array.join(sep)`. -/
def jsJoinList (sep : String) (xs : List Json) : String :=
  String.intercalate sep (xs.map jsJoinElem)

/-- Elements of a JSON array value (`[]` for non-arrays; every use below is
on a value that is provably an array). -/
def Json.elems : Json → List Json
  | .arr xs => xs.toList
  | _ => []

/-- Number of elements of a JSON array value (`.length` in the sources). -/
def Json.jsLength (j : Json) : Nat :=
  j.elems.length

/-- Pattern normalisation inside `detectTechStack`:
`pattern.replace("*.", "").toLowerCase()` followed by `.replace("/", "")`
at the `includes` call (each `replace` removes only the first occurrence). -/
def normalizedPattern (p : String) : String :=
  removeFirstStr (lowerStr (removeFirstStr p "*.")) "/"

/-- The `detectTechStack(structure)` from `repo-analyzer.js`: join the structure
listing with spaces, lowercase it, and collect every technology one of
whose normalised patterns occurs as a substring; deduplicate with
`[...new Set(detected)]`. -/
def detectTechStack (structureListing : Json) : List String :=
  let structureStr := lowerStr (jsJoinList " " structureListing.elems)
  let detected := TECH_PATTERNS.filterMap fun tp =>
    if tp.2.any (fun p => strIncludes structureStr (normalizedPattern p)) then some tp.1
    else none
  jsSetDedup detected

/-! Prompt texts, reproduced verbatim from the sources.  Every theorem
below holds for arbitrary session behaviour, so no proof depends on the
wording; the texts are kept for fidelity. -/

def searchDocsForTechPrompt (tech : String) : String :=
  "Use the Microsoft Learn MCP tools to search for \"" ++ tech ++ " getting started guide\" documentation.\n\nReturn the top 5 most relevant results as JSON array:\n[\x7b\"title\": \"...\", \"url\": \"...\", \"description\": \"One-line description of what the doc covers\"\x7d]\n\nFocus on:\n- Official getting-started guides\n- Best practices\n- Architecture patterns\n- Common pitfalls to avoid"

def searchArchitectureDocsPrompt (techList : String) : String :=
  "Use the Microsoft Learn MCP tools to search for architecture best practices related to: " ++ techList ++ ".\n\nAlso search for code samples using the microsoft_code_sample_search tool for: " ++ techList ++ "\n\nReturn the top 5 most relevant results as JSON array:\n[\x7b\"title\": \"...\", \"url\": \"...\", \"description\": \"...\", \"type\": \"doc|sample\"\x7d]\n\nFocus on:\n- Solution architecture patterns\n- Cloud-native patterns (if applicable)\n- Security best practices\n- Performance optimization guides"

def searchTutorialsPrompt (query : String) : String :=
  "Use the Microsoft Learn MCP tools to search for interactive tutorials and learning paths for: " ++ query ++ ".\n\nReturn the top 5 results as JSON array:\n[\x7b\"title\": \"...\", \"url\": \"...\", \"description\": \"...\", \"estimatedTime\": \"30 min\"\x7d]\n\nPrioritize:\n- Hands-on tutorials (not just reference docs)\n- Microsoft Learn training modules\n- Quickstart guides"

def getRepoStructurePrompt (owner : String) (repo : String) : String :=
  "Use the GitHub MCP tools to get the repository tree/contents for " ++ owner ++ "/" ++ repo ++ ". \nList the top-level files and directories. Return ONLY a JSON array of file/directory names, like:\n[\"README.md\", \"src/\", \"package.json\", \"docs/\", \".github/\"]\nDo not include any explanation, just the JSON array."

def getKeyDocumentsPrompt (owner : String) (repo : String) (docsToFetch : List String) : String :=
  "Use the GitHub MCP tools to get the file contents of these files from " ++ owner ++ "/" ++ repo ++ ":\n" ++ (String.intercalate "\n" (docsToFetch.map (fun f => "- " ++ f))) ++ "\n\nFor each file, return its name and a SUMMARY (not full content) of what it tells a new developer:\n- What the project does\n- How to set it up\n- Key architecture decisions\n- Important conventions or patterns\n\nFormat as JSON: [\x7b\"file\": \"name\", \"summary\": \"...\"\x7d]"

def getRecentPRsPrompt (owner : String) (repo : String) : String :=
  "Use the GitHub MCP tools to list the " ++ (toString MAX_PRS_TO_FETCH) ++ " most recent pull requests for " ++ owner ++ "/" ++ repo ++ ".\nInclude both open and recently merged PRs.\n\nFor each PR, return: number, title, state, author, and a one-line description of the change.\nFormat as JSON array: [\x7b\"number\": 1, \"title\": \"...\", \"state\": \"open|merged\", \"author\": \"...\", \"description\": \"...\"\x7d]"

def getActiveIssuesPrompt (owner : String) (repo : String) : String :=
  "Use the GitHub MCP tools to list the " ++ (toString MAX_ISSUES_TO_FETCH) ++ " most recent open issues for " ++ owner ++ "/" ++ repo ++ ".\nSort by most recently updated.\n\nFor each issue, return: number, title, labels (as array), and a one-line summary.\nFormat as JSON array: [\x7b\"number\": 1, \"title\": \"...\", \"labels\": [\"bug\", \"priority\"], \"summary\": \"...\"\x7d]"

def getDiscussionsPrompt (owner : String) (repo : String) : String :=
  "Use the GitHub MCP tools to list the " ++ (toString MAX_DISCUSSIONS_TO_FETCH) ++ " most recent discussions for " ++ owner ++ "/" ++ repo ++ ".\nIf the repo has no discussions enabled, return an empty array.\n\nFor each discussion, return: title, category, author, and a one-line summary.\nFormat as JSON array: [\x7b\"title\": \"...\", \"category\": \"...\", \"author\": \"...\", \"summary\": \"...\"\x7d]"

def getRecentTeamsActivityPrompt (teamName : String) : String :=
  "Use the WorkIQ MCP tools to search for recent messages in Teams channels related to \"" ++ teamName ++ "\".\n\nLook for:\n- Recent technical discussions or decisions\n- Announcements or important updates\n- Current sprint/project focus areas\n- Any recurring themes or hot topics\n\nSummarize the top 5 most relevant discussion threads as JSON:\n[\x7b\"topic\": \"...\", \"channel\": \"...\", \"summary\": \"One-line summary\", \"date\": \"approx date\", \"relevance\": \"Why a new hire should know this\"\x7d]\n\nIf WorkIQ is not available, return an empty array."

def getKeyPeoplePrompt (teamName : String) (projectContext : String) : String :=
  "Use the WorkIQ MCP tools to find key people related to \"" ++ teamName ++ "\" and the project context: \"" ++ projectContext ++ "\".\n\nIdentify:\n- Team lead / manager\n- Senior engineers / tech leads\n- People who are most active in discussions\n- Subject matter experts for the tech stack\n\nReturn as JSON array:\n[\x7b\"name\": \"...\", \"role\": \"Likely role/expertise\", \"reason\": \"Why a new hire should connect with them\"\x7d]\n\nLimit to 5-7 key people. If WorkIQ is not available, return an empty array."

def getUpcomingEventsPrompt (teamName : String) : String :=
  "Use the WorkIQ MCP tools to find upcoming meetings and events related to \"" ++ teamName ++ "\" in the next 2 weeks.\n\nLook for:\n- Team standups / syncs\n- Sprint planning / retrospectives\n- Architecture reviews\n- All-hands or team socials\n- Any onboarding-specific sessions\n\nReturn as JSON array:\n[\x7b\"event\": \"...\", \"date\": \"...\", \"recurring\": true/false, \"relevance\": \"Why attend as a new hire\"\x7d]\n\nLimit to 8 events. If WorkIQ is not available, return an empty array."

def getTeamNormsPrompt (teamName : String) : String :=
  "Use the WorkIQ MCP tools to search for team norms, processes, and cultural information about \"" ++ teamName ++ "\".\n\nSearch in:\n- Teams channel descriptions and pinned messages\n- SharePoint sites or wikis related to the team\n- Recent emails about team processes or guidelines\n\nSummarize as JSON:\n\x7b\n  \"communicationChannels\": [\"List of key channels/groups to join\"],\n  \"meetingCadence\": \"Description of regular meetings\",\n  \"codeReviewProcess\": \"How the team does code reviews\",\n  \"deploymentProcess\": \"How the team deploys\",\n  \"otherNorms\": [\"Any other important team norms\"]\n\x7d\n\nIf WorkIQ is not available, return reasonable defaults with \"Unknown — ask your team lead\" placeholders."

def getEmailInsightsPrompt (teamName : String) (projectContext : String) : String :=
  "Use the WorkIQ MCP tools to search recent emails related to \"" ++ teamName ++ "\" and \"" ++ projectContext ++ "\".\n\nLook for:\n- Key decisions communicated over email (architecture changes, policy updates)\n- Important announcements from leadership or stakeholders\n- Action items or follow-ups that affect the project\n- Onboarding-related emails (welcome messages, access requests, setup guides)\n\nSummarize the top 5 most relevant email threads as JSON:\n[\x7b\"subject\": \"...\", \"from\": \"sender name or role\", \"date\": \"approx date\", \"summary\": \"One-line summary of the key takeaway\", \"relevance\": \"Why a new hire should know this\"\x7d]\n\nIf WorkIQ is not available, return an empty array."

def getRelatedDocumentsPrompt (teamName : String) (projectContext : String) : String :=
  "Use the WorkIQ MCP tools to search for documents on SharePoint and OneDrive related to \"" ++ teamName ++ "\" and \"" ++ projectContext ++ "\".\n\nLook for:\n- Architecture or design documents\n- Technical specifications and RFCs\n- Onboarding guides or team wikis\n- Runbooks and operational playbooks\n- Slide decks from recent tech talks or reviews\n\nReturn the top 8 most relevant documents as JSON:\n[\x7b\"title\": \"...\", \"type\": \"document type (e.g., Word, PowerPoint, Wiki, PDF)\", \"location\": \"SharePoint site or OneDrive folder\", \"lastModified\": \"approx date\", \"summary\": \"Brief description of what it contains\", \"relevance\": \"Why a new hire should read this\"\x7d]\n\nIf WorkIQ is not available, return an empty array."


/-! Session boundary and effectful array helpers. -/

/-- The session boundary: `session.sendAndWait(prompt)` returns
`\x7b message \x7d`; the model maps the prompt to either the reply message
(`ok`) or the message of a thrown error (`error`). -/
def Send : Type := String → Except String String

/-- JavaScript `s.toLowerCase()` on a dynamic value: throws a `TypeError`
for non-strings. -/
def jsToLowerCase : Json → Except String String
  | .str s => .ok (lowerStr s)
  | _ => .error "s.toLowerCase is not a function"

/-- Short-circuiting `Array.prototype.some` with a predicate that may
throw. -/
def someM (p : α → Except String Bool) : List α → Except String Bool
  | [] => .ok false
  | x :: rest => do
    let b ← p x
    if b then pure true else someM p rest

/-- The `Array.prototype.filter` with a predicate that may throw; elements are
visited in order and the first throw propagates. -/
def filterM (p : α → Except String Bool) : List α → Except String (List α)
  | [] => .ok []
  | x :: rest => do
    let b ← p x
    let l ← filterM p rest
    pure (if b then x :: l else l)

/-! Repo analyzer (`repo-analyzer.js`). -/

/-- The `getRepoStructure`: one session round-trip with array-shape extraction
and `[]` on both a missing match and a parse error. -/
def getRepoStructure (send : Send) (owner repo : String) : Except String Json := do
  let msg ← send (getRepoStructurePrompt owner repo)
  pure (extractArrayJs msg (Json.arrOf []))

/-- Catch fallback of `getKeyDocuments`:
`[\x7b file: "README.md", summary: "Could not parse documentation." \x7d]`. -/
def docsParseErrorFallback : Json :=
  Json.arrOf
    [Json.objOf
      [("file", .str "README.md"), ("summary", .str "Could not parse documentation.")]]

/-- Selection of documentation files in `getKeyDocuments`:
`ARCHITECTURE_FILES.filter(...)` over the structure listing, sliced to
`MAX_FILES_TO_ANALYZE`, with `README.md` pushed when empty.  Evaluating
`s.toLowerCase()` on a non-string structure element throws, like the
source. -/
def docsToFetchOf (structureListing : Json) : Except String (List String) := do
  let filtered ← filterM
    (fun f => do
      let normalizedFile := removeFirstStr (lowerStr f) "/"
      someM
        (fun s => do
          let sLower ← jsToLowerCase s
          pure (strIncludes sLower normalizedFile ||
            strIncludes normalizedFile (removeFirstStr sLower "/")))
        structureListing.elems)
    ARCHITECTURE_FILES
  let sliced := filtered.take MAX_FILES_TO_ANALYZE
  pure (if sliced.isEmpty then ["README.md"] else sliced)

/-- The `getKeyDocuments`: note the asymmetric fallbacks — `[]` when the array
regex finds no match, but `docsParseErrorFallback` when `JSON.parse`
throws. -/
def getKeyDocuments (send : Send) (owner repo : String) (structureListing : Json) :
    Except String Json := do
  let docsToFetch ← docsToFetchOf structureListing
  let msg ← send (getKeyDocumentsPrompt owner repo docsToFetch)
  pure (extractArrayJs msg docsParseErrorFallback)

/-- The `getRecentPRs`. -/
def getRecentPRs (send : Send) (owner repo : String) : Except String Json := do
  let msg ← send (getRecentPRsPrompt owner repo)
  pure (extractArrayJs msg (Json.arrOf []))

/-- The `getActiveIssues`. -/
def getActiveIssues (send : Send) (owner repo : String) : Except String Json := do
  let msg ← send (getActiveIssuesPrompt owner repo)
  pure (extractArrayJs msg (Json.arrOf []))

/-- The `getDiscussions`. -/
def getDiscussions (send : Send) (owner repo : String) : Except String Json := do
  let msg ← send (getDiscussionsPrompt owner repo)
  pure (extractArrayJs msg (Json.arrOf []))

/-- The `RepositoryAnalysis` record (the source field `structure` is a
Lean keyword and is rendered `structureListing`). -/
structure RepositoryAnalysis where
  repoFullName : String
  structureListing : Json
  techStack : List String
  docs : Json
  prActivity : Json
  issues : Json
  discussions : Json
deriving DecidableEq

/-- The `analyzeRepository`: the five round-trips in source order with the
local tech-stack detection after the first; any throw (a rejected
`sendAndWait` or the `TypeError` in `getKeyDocuments`) aborts the whole
collector. -/
def analyzeRepository (send : Send) (owner repo : String) :
    Except String RepositoryAnalysis := do
  let repoFullName := owner ++ "/" ++ repo
  let structureListing ← getRepoStructure send owner repo
  let techStack := detectTechStack structureListing
  let docs ← getKeyDocuments send owner repo structureListing
  let prActivity ← getRecentPRs send owner repo
  let issues ← getActiveIssues send owner repo
  let discussions ← getDiscussions send owner repo
  pure { repoFullName, structureListing, techStack, docs, prActivity, issues, discussions }

/-! Docs fetcher (`docs-fetcher.js`). -/

/-- One entry of the learning-resource sequence:
`\x7b technology, resources \x7d`. -/
structure LearningResourceGroup where
  technology : String
  resources : Json
deriving DecidableEq

/-- The `searchDocsForTech`. -/
def searchDocsForTech (send : Send) (tech : String) : Except String Json := do
  let msg ← send (searchDocsForTechPrompt tech)
  pure (extractArrayJs msg (Json.arrOf []))

/-- The `searchArchitectureDocs`. -/
def searchArchitectureDocs (send : Send) (repoContext : RepositoryAnalysis) :
    Except String Json := do
  let techList := String.intercalate ", " repoContext.techStack
  let msg ← send (searchArchitectureDocsPrompt techList)
  pure (extractArrayJs msg (Json.arrOf []))

/-- The `searchTutorials`. -/
def searchTutorials (send : Send) (techStack : List String) : Except String Json := do
  let query := String.intercalate " and " (techStack.take 3)
  let msg ← send (searchTutorialsPrompt query)
  pure (extractArrayJs msg (Json.arrOf []))

/-- The per-technology loop of `fetchLearningResources`. -/
def fetchResourcesForTechs (send : Send) : List String → Except String (List LearningResourceGroup)
  | [] => .ok []
  | tech :: rest => do
    let techResources ← searchDocsForTech send tech
    let tail ← fetchResourcesForTechs send rest
    pure ({ technology := tech, resources := techResources } :: tail)

/-- The `fetchLearningResources`: one group per technology in input order,
then the two fixed categories. -/
def fetchLearningResources (send : Send) (techStack : List String)
    (repoContext : RepositoryAnalysis) : Except String (List LearningResourceGroup) := do
  let techGroups ← fetchResourcesForTechs send techStack
  let archResources ← searchArchitectureDocs send repoContext
  let tutorials ← searchTutorials send techStack
  pure (techGroups ++
    [{ technology := "Architecture & Best Practices", resources := archResources },
     { technology := "Getting Started Tutorials", resources := tutorials }])

/-! Teams gatherer (`teams-gatherer.js`). -/

/-- The `TeamContext` record. -/
structure TeamContext where
  recentDiscussions : Json
  teamMembers : Json
  upcomingEvents : Json
  teamNorms : Json
  emailInsights : Json
  relatedDocuments : Json
deriving DecidableEq

/-- The `getRecentTeamsActivity`. -/
def getRecentTeamsActivity (send : Send) (teamName : String) : Except String Json := do
  let msg ← send (getRecentTeamsActivityPrompt teamName)
  pure (extractArrayJs msg (Json.arrOf []))

/-- The `getKeyPeople`. -/
def getKeyPeople (send : Send) (teamName projectContext : String) : Except String Json := do
  let msg ← send (getKeyPeoplePrompt teamName projectContext)
  pure (extractArrayJs msg (Json.arrOf []))

/-- The `getUpcomingEvents`. -/
def getUpcomingEvents (send : Send) (teamName : String) : Except String Json := do
  let msg ← send (getUpcomingEventsPrompt teamName)
  pure (extractArrayJs msg (Json.arrOf []))

/-- The `getTeamNorms`: the only object-shape extraction site. -/
def getTeamNorms (send : Send) (teamName : String) : Except String Json := do
  let msg ← send (getTeamNormsPrompt teamName)
  pure (extractNormsJs msg)

/-- The `getEmailInsights`. -/
def getEmailInsights (send : Send) (teamName projectContext : String) : Except String Json := do
  let msg ← send (getEmailInsightsPrompt teamName projectContext)
  pure (extractArrayJs msg (Json.arrOf []))

/-- The `getRelatedDocuments`. -/
def getRelatedDocuments (send : Send) (teamName projectContext : String) : Except String Json := do
  let msg ← send (getRelatedDocumentsPrompt teamName projectContext)
  pure (extractArrayJs msg (Json.arrOf []))

/-- The `gatherTeamContext`: six round-trips in source order; any throw aborts
the whole collector. -/
def gatherTeamContext (send : Send) (teamName projectContext : String) :
    Except String TeamContext := do
  let recentDiscussions ← getRecentTeamsActivity send teamName
  let teamMembers ← getKeyPeople send teamName projectContext
  let upcomingEvents ← getUpcomingEvents send teamName
  let teamNorms ← getTeamNorms send teamName
  let emailInsights ← getEmailInsights send teamName projectContext
  let relatedDocuments ← getRelatedDocuments send teamName projectContext
  pure { recentDiscussions, teamMembers, upcomingEvents, teamNorms, emailInsights,
         relatedDocuments }

/-! Guide generator (`guide-generator.js`) with a file-system model for
`mkdir`/`writeFile`. -/

/-- File-system state: the set of created directories and the files as a
path-to-content association (unique paths). -/
structure FS where
  dirs : List String
  files : List (String × String)
deriving DecidableEq

/-- The `mkdir(dir, \x7b recursive: true \x7d)`: never fails, creates the
directory if missing (intermediate parents are not tracked separately). -/
def FS.mkdirRecursive (fs : FS) (dir : String) : FS :=
  if dir ∈ fs.dirs then fs else { fs with dirs := dir :: fs.dirs }

/-- Replace the content at `path`, or append a new entry if absent. -/
def setFile : List (String × String) → String → String → List (String × String)
  | [], path, content => [(path, content)]
  | (q, d) :: rest, path, content =>
    if q = path then (path, content) :: rest
    else (q, d) :: setFile rest path content

/-- Content at `path`, if any. -/
def lookupFile : List (String × String) → String → Option String
  | [], _ => none
  | (q, d) :: rest, path => if q = path then some d else lookupFile rest path

/-- The `writeFile(path, content, "utf-8")`: truncates and overwrites. -/
def FS.writeFile (fs : FS) (path content : String) : FS :=
  { fs with files := setFile fs.files path content }

/-- The `path.join(dir, name)`, modelled as `dir ++ "/" ++ name`; Node's
normalisation (e.g. dropping a leading `./`) changes the spelling but not
the denoted path and is not modelled. -/
def pathJoin (dir name : String) : String :=
  dir ++ "/" ++ name

/-- The `saveGuide(content, owner, repo)`: create the output directory,
take the first ten characters of the current ISO timestamp (`YYYY-MM-DD`),
and overwrite `\x7boutputDir\x7d/onboarding-\x7bowner\x7d-\x7brepo\x7d-\x7bdate\x7d.md`.
The clock is the parameter `nowIso` (the value of
`new Date().toISOString()`). -/
def saveGuide (outputDir nowIso content owner repo : String) (fs : FS) : String × FS :=
  let fs1 := fs.mkdirRecursive outputDir
  let timestamp := nowIso.take 10
  let filename := "onboarding-" ++ owner ++ "-" ++ repo ++ "-" ++ timestamp ++ ".md"
  let outputPath := pathJoin outputDir filename
  (outputPath, fs1.writeFile outputPath content)

/-- The `addGuideHeader`: the metadata block prepended to the synthesised
text. -/
def addGuideHeader (content owner repo newHireName generatedAt : String)
    (techStack : List String) : String :=
  "---\ntitle: \"Onboarding Guide — " ++ owner ++ "/" ++ repo ++
    "\"\ngenerated_by: \"🤖 OnboardBot — AI-Powered Onboarding Accelerator\"\ngenerated_at: \"" ++
    generatedAt ++ "\"\ntech_stack: [" ++
    String.intercalate ", " (techStack.map (fun t => "\"" ++ t ++ "\"")) ++
    "]\nnew_hire: \"" ++ newHireName ++ "\"\n---\n\n" ++ content

/-- The `buildSynthesisPrompt`, abridged: the source embeds
`JSON.stringify(·, null, 2)` serialisations of all three records inside a
long fixed template; every theorem below quantifies over the session, so
no property depends on this text, and only its skeleton is reproduced. -/
def buildSynthesisPrompt (repoAnalysis : RepositoryAnalysis)
    (learningResources : List LearningResourceGroup) (teamContext : TeamContext)
    (owner repo newHireName : String) : String :=
  "You are an expert onboarding specialist. Generate a comprehensive, personalized onboarding guide for a new developer joining the " ++
    owner ++ "/" ++ repo ++ " project.\n\n**Repository:** " ++
    repoAnalysis.repoFullName ++ "\n**Detected Tech Stack:** " ++
    (let joined := String.intercalate ", " repoAnalysis.techStack
     if joined = "" then "Not detected" else joined) ++
    "\n\n## LEARNING RESOURCES FROM MICROSOFT LEARN (" ++
    toString learningResources.length ++
    " groups)\n\n## TEAM CONTEXT FROM M365 (norms: " ++
    jsDisplay teamContext.teamNorms ++
    ")\n\n# 🚀 Welcome to " ++ owner ++ "/" ++ repo ++ "!\n\n## 👋 Hello, " ++
    newHireName ++ "!\n"

/-- The synthesised guide: `\x7b content, outputPath \x7d`. -/
structure GuideDoc where
  content : String
  outputPath : String
deriving DecidableEq

/-- The `generateOnboardingGuide`: one synthesis round-trip (free-text
passthrough, no JSON extraction), header prepension, and persistence.  The
clock parameter `nowIso` models both `new Date()` calls of the source
(header timestamp and file-name date). -/
def generateOnboardingGuide (send : Send) (outputDir nowIso : String)
    (repoAnalysis : RepositoryAnalysis) (learningResources : List LearningResourceGroup)
    (teamContext : TeamContext) (owner repo : String) (newHireName : Option String)
    (fs : FS) : Except String (GuideDoc × FS) := do
  let newHire := match newHireName with
    | none => "New Team Member"
    | some s => s
  let msg ← send
    (buildSynthesisPrompt repoAnalysis learningResources teamContext owner repo newHire)
  let guideContent := addGuideHeader msg owner repo newHire nowIso repoAnalysis.techStack
  let (outputPath, fs2) := saveGuide outputDir nowIso guideContent owner repo fs
  pure ({ content := guideContent, outputPath := outputPath }, fs2)

/-! Orchestrator (`onboardbot.js`). -/

/-- A success entry of `results.steps`; each stage fills its own metric
fields, the others stay `none`. -/
structure StepOutcome where
  step : String
  status : String
  techStack : Option (List String) := none
  filesFound : Option Nat := none
  docsFound : Option Nat := none
  prsFound : Option Nat := none
  issuesFound : Option Nat := none
  resourceCount : Option Nat := none
  discussions : Option Nat := none
  people : Option Nat := none
  events : Option Nat := none
  emails : Option Nat := none
  documents : Option Nat := none
  outputPath : Option String := none
  contentLength : Option Nat := none
deriving DecidableEq

/-- An entry of `results.errors`: `\x7b step, error \x7d`. -/
structure RunError where
  step : String
  error : String
deriving DecidableEq

/-- The `results` object returned by `runOnboardBot`. -/
structure PipelineRunResult where
  steps : List StepOutcome
  errors : List RunError
  guide : Option GuideDoc
deriving DecidableEq

/-- The options destructured by `runOnboardBot`; `teamName` and
`newHireName` may be absent. -/
structure RunOptions where
  owner : String
  repo : String
  teamName : Option String
  newHireName : Option String
deriving DecidableEq

/-- JavaScript `a || b` on an optional string (absent and empty are
falsy). -/
def jsOrElse (v : Option String) (dflt : String) : String :=
  match v with
  | some s => if s = "" then dflt else s
  | none => dflt

/-- Fallback `RepositoryAnalysis` of the repo task's `.catch`. -/
def defaultRepoAnalysis (owner repo : String) : RepositoryAnalysis :=
  { repoFullName := owner ++ "/" ++ repo, structureListing := .arrOf [],
    techStack := [], docs := .arrOf [], prActivity := .arrOf [],
    issues := .arrOf [], discussions := .arrOf [] }

/-- Fallback `TeamContext` of the team task's `.catch` (distinct from
`getDefaultNorms`). -/
def defaultTeamContextOrch : TeamContext :=
  { recentDiscussions := .arrOf [], teamMembers := .arrOf [],
    upcomingEvents := .arrOf [],
    teamNorms := Json.objOf
      [ ("communicationChannels", .arrOf []),
        ("meetingCadence", .str "Unknown"),
        ("codeReviewProcess", .str "Check CONTRIBUTING.md"),
        ("deploymentProcess", .str "Check CI/CD workflows"),
        ("otherNorms", .arrOf []) ],
    emailInsights := .arrOf [], relatedDocuments := .arrOf [] }

/-- The `repo-analysis` success entry. -/
def repoStepOutcome (a : RepositoryAnalysis) : StepOutcome :=
  { step := "repo-analysis", status := "success",
    techStack := some a.techStack,
    filesFound := some a.structureListing.jsLength,
    docsFound := some a.docs.jsLength,
    prsFound := some a.prActivity.jsLength,
    issuesFound := some a.issues.jsLength }

/-- The `docs-fetch` success entry. -/
def docsStepOutcome (rs : List LearningResourceGroup) : StepOutcome :=
  { step := "docs-fetch", status := "success",
    resourceCount := some (rs.foldl (fun sum r => sum + r.resources.jsLength) 0) }

/-- The `team-context` success entry. -/
def teamStepOutcome (c : TeamContext) : StepOutcome :=
  { step := "team-context", status := "success",
    discussions := some c.recentDiscussions.jsLength,
    people := some c.teamMembers.jsLength,
    events := some c.upcomingEvents.jsLength,
    emails := some c.emailInsights.jsLength,
    documents := some c.relatedDocuments.jsLength }

/-- The `guide-generation` success entry. -/
def guideStepOutcome (g : GuideDoc) : StepOutcome :=
  { step := "guide-generation", status := "success",
    outputPath := some g.outputPath,
    contentLength := some g.content.length }

/-- Joint result of the three collector chains (`repoTask`, `docsTask`,
`teamTask`): the values handed to the synthesis stage and the bookkeeping
rows each chain appended.  Relative order among the three chains' rows is
timing-dependent in the source (single-threaded interleaving); this model
fixes the order repo, docs, team, and no property below depends on it. -/
structure CollectPhase where
  repoAnalysis : RepositoryAnalysis
  learningResources : List LearningResourceGroup
  teamContext : TeamContext
  steps : List StepOutcome
  errors : List RunError
deriving DecidableEq

/-- The `.then(push success row).catch(push error row; return fallback)`
pattern shared by the three collector chains (the spec's Stage Runner):
a settled chain yields its value and one success row, or its complete
fallback value and one error row. -/
def stageFold (res : Except String α) (fallback : α) (mk : α → StepOutcome)
    (name : String) : α × List StepOutcome × List RunError :=
  match res with
  | .ok v => (v, [mk v], [])
  | .error e => (fallback, [], [{ step := name, error := e }])

/-- Steps 1-3 of `runOnboardBot`: each chain resolves either to its real
value plus a success row, or to its complete fallback value plus an error
row; `docsTask` is a continuation of `repoTask`, so it consumes the repo
fallback when the repo chain failed. -/
def collectPhase (send : Send) (opts : RunOptions) : CollectPhase :=
  let repoFold := stageFold (analyzeRepository send opts.owner opts.repo)
    (defaultRepoAnalysis opts.owner opts.repo) repoStepOutcome "repo-analysis"
  let docsFold := stageFold
    (fetchLearningResources send repoFold.1.techStack repoFold.1)
    [] docsStepOutcome "docs-fetch"
  let teamFold := stageFold
    (gatherTeamContext send (jsOrElse opts.teamName opts.repo)
      (opts.owner ++ "/" ++ opts.repo))
    defaultTeamContextOrch teamStepOutcome "team-context"
  { repoAnalysis := repoFold.1, learningResources := docsFold.1,
    teamContext := teamFold.1,
    steps := repoFold.2.1 ++ docsFold.2.1 ++ teamFold.2.1,
    errors := repoFold.2.2 ++ docsFold.2.2 ++ teamFold.2.2 }

/-- The `runOnboardBot`: the collect phase, then the guarded synthesis stage;
the result is returned whether or not synthesis succeeded. -/
def runOnboardBot (send : Send) (outputDir nowIso : String) (fs : FS)
    (opts : RunOptions) : PipelineRunResult × FS :=
  let c := collectPhase send opts
  match generateOnboardingGuide send outputDir nowIso c.repoAnalysis
      c.learningResources c.teamContext opts.owner opts.repo opts.newHireName fs with
  | .ok (guide, fs2) =>
    ({ steps := c.steps ++ [guideStepOutcome guide], errors := c.errors,
       guide := some guide }, fs2)
  | .error e =>
    ({ steps := c.steps,
       errors := c.errors ++ [{ step := "guide-generation", error := e }],
       guide := none }, fs)

/-! Demo session (`createDemoSession` in `src/index.js`): a pure
first-match-wins dispatch over substring predicates of the prompt. -/

/-- Word character of the regex class `\w`. -/
def isWordChar (c : Char) : Bool :=
  c.isAlpha || c.isDigit || c = '_'

/-- Maximal leading run of word characters. -/
def wordRun : List Char → (List Char × List Char)
  | [] => ([], [])
  | c :: rest =>
    if isWordChar c then
      let (run, r) := wordRun rest
      (c :: run, r)
    else ([], c :: rest)

/-- First match of `/(\w+)\/(\w+)/`: the two captured groups.  At each
start position the first group is the maximal word run (shortening it
cannot make the following `/` match), so a position matches exactly when
its maximal word run is non-empty and followed by `/` and a word
character. -/
def matchOwnerRepo : List Char → Option (String × String)
  | [] => none
  | c :: rest =>
    if isWordChar c then
      let (run, r1) := wordRun (c :: rest)
      match r1 with
      | '/' :: r2 =>
        let (run2, _) := wordRun r2
        if run2.isEmpty then matchOwnerRepo rest else some (String.mk run, String.mk run2)
      | _ => matchOwnerRepo rest
    else matchOwnerRepo rest

/-- Capture of the lazy `(.+?)!` after the literal prefix: the characters
up to the first `!` at distance at least one, failing on an intervening
line terminator (which `.` does not match). -/
def captureToExclaim : List Char → Option (List Char)
  | [] => none
  | c :: rest =>
    if c = '\n' || c = '\r' then none
    else
      match rest with
      | [] => none
      | d :: rest2 =>
        if d = '!' then some [c]
        else (captureToExclaim (d :: rest2)).map (fun cs => c :: cs)

/-- First match of `/Hello, (.+?)!/`: the captured group. -/
def matchHelloName : List Char → Option String
  | [] => none
  | c :: rest =>
    if prefixTest "Hello, ".data (c :: rest) then
      match captureToExclaim ((c :: rest).drop 7) with
      | some cap => some (String.mk cap)
      | none => matchHelloName rest
    else matchHelloName rest

/-- Canned demo reply (`createDemoSession`). -/
def demoMsgStructure : String :=
  "[\"README.md\", \"src/\", \"package.json\", \"tsconfig.json\", \"docs/\", \".github/\", \"Dockerfile\", \"docker-compose.yml\", \"tests/\", \".eslintrc.json\", \"jest.config.js\"]"

/-- Canned demo reply (`createDemoSession`). -/
def demoMsgDocs : String :=
  "[\x7b\"file\": \"README.md\", \"summary\": \"Project overview with setup instructions, architecture diagram, and contributing guidelines. Uses a microservice architecture with Node.js backend and React frontend.\"\x7d, \x7b\"file\": \"CONTRIBUTING.md\", \"summary\": \"Contribution guide: fork, branch, PR workflow. Code review required from 2 reviewers. Must pass CI checks before merge.\"\x7d]"

/-- Canned demo reply (`createDemoSession`). -/
def demoMsgPRs : String :=
  "[\x7b\"number\": 234, \"title\": \"feat: Add user authentication module\", \"state\": \"open\", \"author\": \"senior-dev\", \"description\": \"Implements OAuth2 authentication with Azure AD integration\"\x7d, \x7b\"number\": 231, \"title\": \"fix: Resolve memory leak in data pipeline\", \"state\": \"merged\", \"author\": \"tech-lead\", \"description\": \"Fixed connection pool exhaustion under high load\"\x7d, \x7b\"number\": 228, \"title\": \"docs: Update API documentation\", \"state\": \"merged\", \"author\": \"docs-team\", \"description\": \"Added OpenAPI specs for new endpoints\"\x7d]"

/-- Canned demo reply (`createDemoSession`). -/
def demoMsgIssues : String :=
  "[\x7b\"number\": 100, \"title\": \"Implement caching layer\", \"labels\": [\"enhancement\", \"performance\"], \"summary\": \"Add Redis caching for frequently accessed data\"\x7d, \x7b\"number\": 95, \"title\": \"Add unit tests for auth module\", \"labels\": [\"testing\", \"good first issue\"], \"summary\": \"New auth module needs comprehensive test coverage\"\x7d, \x7b\"number\": 88, \"title\": \"Migrate to Node.js 22\", \"labels\": [\"infrastructure\", \"tech-debt\"], \"summary\": \"Upgrade runtime for performance improvements\"\x7d]"

/-- Canned demo reply (`createDemoSession`). -/
def demoMsgDiscussions : String :=
  "[\x7b\"title\": \"RFC: New API versioning strategy\", \"category\": \"Ideas\", \"author\": \"architect\", \"summary\": \"Proposing URL-based versioning for the public API\"\x7d, \x7b\"title\": \"Team retro: Q4 highlights\", \"category\": \"General\", \"author\": \"manager\", \"summary\": \"Celebrating shipped features and lessons learned\"\x7d]"

/-- Canned demo reply (`createDemoSession`). -/
def demoMsgLearn : String :=
  "[\x7b\"title\": \"Getting started with Node.js on Azure\", \"url\": \"https://learn.microsoft.com/en-us/azure/developer/javascript/\", \"description\": \"Complete guide for building Node.js apps on Azure\"\x7d, \x7b\"title\": \"TypeScript Handbook\", \"url\": \"https://learn.microsoft.com/en-us/training/paths/build-javascript-applications-typescript/\", \"description\": \"Learn TypeScript fundamentals and advanced patterns\"\x7d, \x7b\"title\": \"Docker containers on Azure\", \"url\": \"https://learn.microsoft.com/en-us/azure/container-instances/\", \"description\": \"Deploy containerized applications to Azure\"\x7d]"

/-- Canned demo reply (`createDemoSession`). -/
def demoMsgSamples : String :=
  "[\x7b\"title\": \"Azure Node.js samples\", \"url\": \"https://learn.microsoft.com/en-us/samples/browse/?languages=javascript\", \"description\": \"Official Azure SDK samples for Node.js\", \"type\": \"sample\"\x7d, \x7b\"title\": \"Microservice architecture guide\", \"url\": \"https://learn.microsoft.com/en-us/azure/architecture/microservices/\", \"description\": \"Design patterns for microservice architectures\", \"type\": \"doc\"\x7d]"

/-- Canned demo reply (`createDemoSession`). -/
def demoMsgTutorials : String :=
  "[\x7b\"title\": \"Build a Node.js web app with Azure\", \"url\": \"https://learn.microsoft.com/en-us/training/modules/create-nodejs-project-dependencies/\", \"description\": \"Hands-on tutorial for full-stack Node.js development\", \"estimatedTime\": \"45 min\"\x7d, \x7b\"title\": \"Introduction to Docker containers\", \"url\": \"https://learn.microsoft.com/en-us/training/modules/intro-to-docker-containers/\", \"description\": \"Learn containerization fundamentals\", \"estimatedTime\": \"30 min\"\x7d]"

/-- Canned demo reply (`createDemoSession`). -/
def demoMsgTeams : String :=
  "[\x7b\"topic\": \"Sprint 24 Planning\", \"channel\": \"Engineering\", \"summary\": \"Team agreed to prioritize auth module and caching layer for next sprint\", \"date\": \"2026-02-10\", \"relevance\": \"Understand current sprint priorities and your potential first tasks\"\x7d, \x7b\"topic\": \"Architecture Decision: Event-Driven\", \"channel\": \"Architecture\", \"summary\": \"Moving to event-driven architecture for real-time features\", \"date\": \"2026-02-08\", \"relevance\": \"Key architectural shift that affects how you'll write new services\"\x7d]"

/-- Canned demo reply (`createDemoSession`). -/
def demoMsgPeople : String :=
  "[\x7b\"name\": \"Alex Chen\", \"role\": \"Engineering Manager\", \"reason\": \"Your direct manager — schedule a 1:1 in your first week\"\x7d, \x7b\"name\": \"Sarah Johnson\", \"role\": \"Tech Lead\", \"reason\": \"Leads architecture decisions — great for codebase questions\"\x7d, \x7b\"name\": \"Mike Park\", \"role\": \"Senior Engineer\", \"reason\": \"Most active reviewer — will likely review your first PRs\"\x7d, \x7b\"name\": \"Lisa Wang\", \"role\": \"DevOps Lead\", \"reason\": \"Owns CI/CD and deployment — reach out for infra questions\"\x7d]"

/-- Canned demo reply (`createDemoSession`). -/
def demoMsgEvents : String :=
  "[\x7b\"event\": \"Daily Standup\", \"date\": \"Every day 9:30 AM\", \"recurring\": true, \"relevance\": \"Join from Day 1 to understand daily progress and blockers\"\x7d, \x7b\"event\": \"Sprint Planning\", \"date\": \"2026-02-17\", \"recurring\": true, \"relevance\": \"Great way to understand upcoming work and volunteer for tasks\"\x7d, \x7b\"event\": \"Architecture Review\", \"date\": \"2026-02-19\", \"recurring\": true, \"relevance\": \"Learn about system design decisions and propose improvements\"\x7d]"

/-- Canned demo reply (`createDemoSession`). -/
def demoMsgNorms : String :=
  "\x7b\"communicationChannels\": [\"#engineering-general\", \"#project-alpha\", \"#code-reviews\", \"#social\"], \"meetingCadence\": \"Daily standup at 9:30 AM, sprint planning bi-weekly Monday, retro bi-weekly Friday\", \"codeReviewProcess\": \"All PRs require 2 approvals. Use conventional commit messages. Link issues in PR description.\", \"deploymentProcess\": \"CI/CD via GitHub Actions. Staging deploys on PR merge to main. Production deploys weekly on Tuesday.\", \"otherNorms\": [\"Use threads in Teams for focused discussions\", \"Update your standup in the #standup channel by 9:30 AM\", \"Pair programming encouraged — just ask in the channel\"]\x7d"

/-- Canned demo reply (`createDemoSession`). -/
def demoMsgEmails : String :=
  "[\x7b\"subject\": \"Architecture Review: Moving to Event-Driven\", \"from\": \"Sarah Johnson (Tech Lead)\", \"date\": \"2026-02-09\", \"summary\": \"Final decision to adopt event-driven architecture using Azure Service Bus for async communication between services\", \"relevance\": \"Major architectural shift — all new services should follow this pattern\"\x7d, \x7b\"subject\": \"Security Audit Results & Action Items\", \"from\": \"Security Team\", \"date\": \"2026-02-06\", \"summary\": \"Audit completed with 3 medium findings. Action items assigned to fix auth token rotation and add rate limiting by Sprint 25\", \"relevance\": \"Understand current security priorities and potential tasks\"\x7d, \x7b\"subject\": \"Welcome to the Team!\", \"from\": \"Alex Chen (Engineering Manager)\", \"date\": \"2026-02-12\", \"summary\": \"Onboarding checklist: request access to Azure subscription, join Teams channels, schedule 1:1s with key people\", \"relevance\": \"Your onboarding action items from your manager\"\x7d, \x7b\"subject\": \"Q1 OKRs Finalized\", \"from\": \"VP of Engineering\", \"date\": \"2026-02-01\", \"summary\": \"Team OKRs: ship auth module, reduce P95 latency by 30%, achieve 90% test coverage on critical paths\", \"relevance\": \"Understand what the team is measured on this quarter\"\x7d, \x7b\"subject\": \"RE: Database Migration Plan\", \"from\": \"Lisa Wang (DevOps Lead)\", \"date\": \"2026-02-05\", \"summary\": \"PostgreSQL to Cosmos DB migration scheduled for March. All new features should use the Cosmos DB SDK\", \"relevance\": \"Affects which database APIs to use in new code\"\x7d]"

/-- Canned demo reply (`createDemoSession`). -/
def demoMsgSharePoint : String :=
  "[\x7b\"title\": \"System Architecture Overview\", \"type\": \"PowerPoint\", \"location\": \"Engineering SharePoint > Architecture\", \"lastModified\": \"2026-02-08\", \"summary\": \"Comprehensive system architecture diagram with data flow, service boundaries, and deployment topology\", \"relevance\": \"Essential reading — the single source of truth for system design\"\x7d, \x7b\"title\": \"API Design Guidelines\", \"type\": \"Word\", \"location\": \"Engineering SharePoint > Standards\", \"lastModified\": \"2026-01-20\", \"summary\": \"REST API conventions, naming standards, error response formats, and versioning strategy\", \"relevance\": \"Must follow these guidelines when building new endpoints\"\x7d, \x7b\"title\": \"Runbook: Production Incidents\", \"type\": \"Wiki\", \"location\": \"Engineering SharePoint > Operations\", \"lastModified\": \"2026-02-03\", \"summary\": \"Step-by-step guide for handling production incidents, escalation paths, and post-mortem template\", \"relevance\": \"Reference for when you join the on-call rotation\"\x7d, \x7b\"title\": \"New Hire Technical Onboarding\", \"type\": \"Word\", \"location\": \"HR SharePoint > Onboarding\", \"lastModified\": \"2026-01-15\", \"summary\": \"Access request forms, dev environment setup checklist, and links to all team resources\", \"relevance\": \"Complements this guide with HR-specific onboarding steps\"\x7d, \x7b\"title\": \"Sprint 23 Retrospective\", \"type\": \"PowerPoint\", \"location\": \"Engineering SharePoint > Retros\", \"lastModified\": \"2026-02-07\", \"summary\": \"Key learnings: improve PR review turnaround, add integration tests before shipping, better sprint estimation\", \"relevance\": \"Understand recent team improvements and expectations\"\x7d, \x7b\"title\": \"Event-Driven Architecture RFC\", \"type\": \"Word\", \"location\": \"Engineering SharePoint > RFCs\", \"lastModified\": \"2026-02-09\", \"summary\": \"Detailed proposal for migrating to event-driven architecture with Azure Service Bus — includes trade-offs and migration plan\", \"relevance\": \"Active RFC — understanding this will help you contribute to architectural discussions\"\x7d]"

/-- Demo guide template of `generateDemoGuide` (verbatim). -/
def demoGuideTemplate (owner repo name : String) : String :=
  "# 🚀 Welcome to " ++ owner ++ "/" ++ repo ++ "!\n\n## 👋 Hello, " ++ name ++ "!\n\nWelcome to the team! We're thrilled to have you on board. This project is at the heart of our engineering efforts, and your contributions will make a real difference. This guide was generated by 🤖 OnboardBot to help you hit the ground running.\n\n## 🏗️ Architecture Overview\n\nThe project follows a **microservice architecture** with clear separation of concerns:\n\n```\n" ++ repo ++ "/\n├── src/              # Main application source code\n│   ├── api/          # REST API endpoints\n│   ├── services/     # Business logic layer\n│   ├── models/       # Data models and schemas\n│   └── utils/        # Shared utilities\n├── tests/            # Test suites (unit, integration, e2e)\n├── docs/             # Project documentation\n├── .github/          # CI/CD workflows and issue templates\n├── Dockerfile        # Container definition\n└── docker-compose.yml # Local development stack\n```\n\n**Key architectural decisions:**\n- Event-driven communication between services\n- OAuth2 authentication with Azure AD integration\n- Redis caching for frequently accessed data\n- Docker-based deployment with GitHub Actions CI/CD\n\n## 🔧 Tech Stack\n\n| Technology | Usage | Learn More |\n|------------|-------|------------|\n| **Node.js** | Backend runtime | [Azure Node.js Guide](https://learn.microsoft.com/en-us/azure/developer/javascript/) |\n| **TypeScript** | Type-safe development | [TypeScript Learning Path](https://learn.microsoft.com/en-us/training/paths/build-javascript-applications-typescript/) |\n| **Docker** | Containerization | [Docker on Azure](https://learn.microsoft.com/en-us/azure/container-instances/) |\n| **Jest** | Testing framework | [Testing Best Practices](https://learn.microsoft.com/en-us/training/modules/create-nodejs-project-dependencies/) |\n| **ESLint** | Code linting | Check `.eslintrc.json` in repo root |\n\n## 🛠️ Development Environment Setup\n\n```bash\n# 1. Clone the repository\ngit clone https://github.com/" ++ owner ++ "/" ++ repo ++ ".git\ncd " ++ repo ++ "\n\n# 2. Install dependencies\nnpm install\n\n# 3. Set up environment variables\ncp .env.example .env\n# Edit .env with your values\n\n# 4. Start local development stack\ndocker-compose up -d\n\n# 5. Run the application\nnpm run dev\n\n# 6. Run tests\nnpm test\n```\n\n**Prerequisites:** Node.js 22+, Docker Desktop, Git, VS Code with ESLint extension\n\n## 📚 Essential Reading\n\n### 🔴 Read First (before writing code)\n- **README.md** — Project overview, setup instructions, architecture diagram\n- **CONTRIBUTING.md** — Fork, branch, PR workflow. 2 reviewers required.\n\n### 🟡 Read This Week\n- **docs/architecture.md** — Detailed system design and data flow\n- **RFC: API Versioning Strategy** — Upcoming changes to the API layer\n\n### 🟢 Reference (bookmark for later)\n- [Azure Node.js Samples](https://learn.microsoft.com/en-us/samples/browse/?languages=javascript)\n- [Microservice Architecture Guide](https://learn.microsoft.com/en-us/azure/architecture/microservices/)\n\n## 🔀 Current Work in Progress\n\n| PR | Title | Author | Status |\n|----|-------|--------|--------|\n| #234 | Add user authentication module | senior-dev | 🟡 Open |\n| #231 | Fix memory leak in data pipeline | tech-lead | ✅ Merged |\n| #228 | Update API documentation | docs-team | ✅ Merged |\n\n**Current sprint focus:** Authentication module and caching layer.\n\n## 🐛 Good First Issues\n\n| Issue | Title | Labels |\n|-------|-------|--------|\n| #95 | **Add unit tests for auth module** | `testing`, `good first issue` |\n| #100 | Implement caching layer | `enhancement`, `performance` |\n\n> 💡 **Suggestion:** Issue #95 is a perfect first contribution! It'll help you understand the auth module while adding valuable test coverage.\n\n## 👥 Key People to Connect With\n\n| Person | Role | Why Reach Out |\n|--------|------|---------------|\n| **Alex Chen** | Engineering Manager | Your direct manager — schedule a 1:1 in week 1 |\n| **Sarah Johnson** | Tech Lead | Architecture questions and codebase guidance |\n| **Mike Park** | Senior Engineer | Most active reviewer — will review your first PRs |\n| **Lisa Wang** | DevOps Lead | CI/CD and deployment questions |\n\n> 💬 **Intro template:** *\"Hi [name]! I'm " ++ name ++ ", just joined the team. I'm working on getting up to speed with " ++ repo ++ ". Would love to chat about [their area] when you have 15 min!\"*\n\n## 📅 Your First Two Weeks\n\n### Week 1: Learn & Setup\n| Day | Focus | Tasks |\n|-----|-------|-------|\n| **Day 1** | 🏠 Setup | Environment setup, read essential docs, introduce yourself in #engineering-general |\n| **Day 2** | 📖 Learn | Explore codebase, understand folder structure, read architecture docs |\n| **Day 3** | 🏃 Run | Run the app locally, explore the API, run test suites |\n| **Day 4** | 👀 Observe | Read recent PRs (#234, #231), attend standup, shadow a code review |\n| **Day 5** | 🎯 Pick | Choose your first issue (#95), start working on it |\n\n### Week 2: Contribute & Connect\n| Day | Focus | Tasks |\n|-----|-------|-------|\n| **Day 6-7** | 💻 Code | Submit your first PR, respond to code review feedback |\n| **Day 8-9** | 🤝 Connect | Pair with Sarah on architecture, attend sprint planning |\n| **Day 10** | 📝 Reflect | Share onboarding feedback, identify areas to improve for next new hire |\n\n## 📅 Important Meetings & Events\n\n| Event | When | Why Attend |\n|-------|------|------------|\n| **Daily Standup** | Every day 9:30 AM | Understand daily progress and blockers |\n| **Sprint Planning** | Feb 17, 2026 | See upcoming work, volunteer for tasks |\n| **Architecture Review** | Feb 19, 2026 | Learn system design, propose improvements |\n\n## 💬 Communication Guide\n\n**Channels to join:**\n- `#engineering-general` — Main engineering discussions\n- `#project-alpha` — Project-specific updates\n- `#code-reviews` — PR notifications and review discussions\n- `#social` — Team bonding and casual chat\n\n**Team norms:**\n- 💬 Use threads in Teams for focused discussions\n- 📝 Update your standup in #standup by 9:30 AM\n- 👯 Pair programming encouraged — just ask!\n- 📦 Use conventional commit messages\n- 🔀 Link issues in PR descriptions\n\n## 📧 Recent Decisions from Email\n\n| Subject | From | Date | Summary |\n|---------|------|------|---------|\n| **Architecture Review: Event-Driven** | Sarah Johnson (Tech Lead) | Feb 9 | Adopted event-driven architecture with Azure Service Bus |\n| **Security Audit Results** | Security Team | Feb 6 | 3 medium findings — fix auth token rotation & rate limiting by Sprint 25 |\n| **Q1 OKRs Finalized** | VP of Engineering | Feb 1 | Ship auth module, reduce P95 latency 30%, 90% test coverage |\n| **Database Migration Plan** | Lisa Wang (DevOps) | Feb 5 | PostgreSQL → Cosmos DB in March. New code should use Cosmos SDK |\n\n> 💡 These decisions shape your day-to-day work. Ask your tech lead if anything is unclear!\n\n## 📄 Key Documents & Resources\n\n| Document | Type | Location | Why Read It |\n|----------|------|----------|-------------|\n| **System Architecture Overview** | PowerPoint | Engineering SharePoint | Single source of truth for system design |\n| **API Design Guidelines** | Word | Engineering SharePoint | Must-follow conventions for new endpoints |\n| **Runbook: Production Incidents** | Wiki | Engineering SharePoint | Reference for on-call rotation |\n| **Event-Driven Architecture RFC** | Word | Engineering SharePoint | Active RFC — join the discussion! |\n| **New Hire Technical Onboarding** | Word | HR SharePoint | Access requests and setup checklist |\n\n## 🎯 30-60-90 Day Goals\n\n### 🎯 30 Days: Foundation\n- [x] Complete environment setup\n- [ ] Merge 2-3 PRs\n- [ ] Understand core architecture\n- [ ] Meet all key team members\n\n### 🎯 60 Days: Contribution\n- [ ] Own a feature or component\n- [ ] Participate in 5+ code reviews\n- [ ] Present in a team meeting\n- [ ] Resolve a production issue\n\n### 🎯 90 Days: Ownership\n- [ ] Lead a small initiative or RFC\n- [ ] Mentor the next new hire\n- [ ] Contribute to architecture decisions\n- [ ] Present a tech talk to the team\n\n## 📖 Additional Resources\n\n- [Getting started with Node.js on Azure](https://learn.microsoft.com/en-us/azure/developer/javascript/)\n- [TypeScript Learning Path](https://learn.microsoft.com/en-us/training/paths/build-javascript-applications-typescript/)\n- [Docker containers on Azure](https://learn.microsoft.com/en-us/azure/container-instances/)\n- [Azure Node.js samples](https://learn.microsoft.com/en-us/samples/browse/?languages=javascript)\n- [Microservice architecture guide](https://learn.microsoft.com/en-us/azure/architecture/microservices/)\n\n---\n\n*Generated by 🤖 OnboardBot — AI-Powered Onboarding Accelerator*\n*Powered by GitHub Copilot + MCP (GitHub MCP, Microsoft Learn MCP, WorkIQ MCP)*\n"

/-- The `generateDemoGuide(prompt)`: extract owner/repo and the new hire's
name from the synthesis prompt and instantiate the fixed demo guide. -/
def generateDemoGuide (prompt : String) : String :=
  let repoMatch := matchOwnerRepo prompt.data
  let owner := match repoMatch with
    | some (o, _) => o
    | none => "org"
  let repo := match repoMatch with
    | some (_, r) => r
    | none => "project"
  let name := match matchHelloName prompt.data with
    | some n => n
    | none => "New Team Member"
  demoGuideTemplate owner repo name

/-- The object returned by the demo `sendAndWait`. -/
structure DemoResp where
  message : String
deriving DecidableEq

/-- The demo `sendAndWait`, verbatim if-chain of `createDemoSession`. -/
def demoSendAndWait (prompt : String) : DemoResp :=
  if strIncludes prompt "repository tree" || strIncludes prompt "top-level" then
    ⟨demoMsgStructure⟩
  else if strIncludes prompt "file contents" || strIncludes prompt "key documentation" then
    ⟨demoMsgDocs⟩
  else if strIncludes prompt "pull requests" then
    ⟨demoMsgPRs⟩
  else if strIncludes prompt "open issues" then
    ⟨demoMsgIssues⟩
  else if strIncludes prompt "discussions" then
    ⟨demoMsgDiscussions⟩
  else if strIncludes prompt "Microsoft Learn" || strIncludes prompt "documentation" then
    ⟨demoMsgLearn⟩
  else if strIncludes prompt "code samples" || strIncludes prompt "architecture" then
    ⟨demoMsgSamples⟩
  else if strIncludes prompt "tutorials" || strIncludes prompt "learning paths" then
    ⟨demoMsgTutorials⟩
  else if strIncludes prompt "Teams" || strIncludes prompt "recent messages" then
    ⟨demoMsgTeams⟩
  else if strIncludes prompt "key people" || strIncludes prompt "find key people" then
    ⟨demoMsgPeople⟩
  else if strIncludes prompt "upcoming meetings" || strIncludes prompt "upcoming events" then
    ⟨demoMsgEvents⟩
  else if strIncludes prompt "team norms" || strIncludes prompt "team processes" then
    ⟨demoMsgNorms⟩
  else if strIncludes prompt "recent emails" || strIncludes prompt "email" then
    ⟨demoMsgEmails⟩
  else if strIncludes prompt "documents on SharePoint" || strIncludes prompt "SharePoint" ||
      strIncludes prompt "OneDrive" then
    ⟨demoMsgSharePoint⟩
  else if strIncludes prompt "onboarding specialist" || strIncludes prompt "Welcome to" then
    ⟨generateDemoGuide prompt⟩
  else
    ⟨"[]"⟩

/-- One dispatch rule of the demo session: a substring predicate on the
prompt and the reply it selects. -/
structure DemoRule where
  test : String → Bool
  respond : String → String

/-- The ordered rule list of `createDemoSession`, one rule per branch of
the if-chain. -/
def demoRules : List DemoRule :=
  [ ⟨fun p => strIncludes p "repository tree" || strIncludes p "top-level",
     fun _ => demoMsgStructure⟩,
    ⟨fun p => strIncludes p "file contents" || strIncludes p "key documentation",
     fun _ => demoMsgDocs⟩,
    ⟨fun p => strIncludes p "pull requests", fun _ => demoMsgPRs⟩,
    ⟨fun p => strIncludes p "open issues", fun _ => demoMsgIssues⟩,
    ⟨fun p => strIncludes p "discussions", fun _ => demoMsgDiscussions⟩,
    ⟨fun p => strIncludes p "Microsoft Learn" || strIncludes p "documentation",
     fun _ => demoMsgLearn⟩,
    ⟨fun p => strIncludes p "code samples" || strIncludes p "architecture",
     fun _ => demoMsgSamples⟩,
    ⟨fun p => strIncludes p "tutorials" || strIncludes p "learning paths",
     fun _ => demoMsgTutorials⟩,
    ⟨fun p => strIncludes p "Teams" || strIncludes p "recent messages",
     fun _ => demoMsgTeams⟩,
    ⟨fun p => strIncludes p "key people" || strIncludes p "find key people",
     fun _ => demoMsgPeople⟩,
    ⟨fun p => strIncludes p "upcoming meetings" || strIncludes p "upcoming events",
     fun _ => demoMsgEvents⟩,
    ⟨fun p => strIncludes p "team norms" || strIncludes p "team processes",
     fun _ => demoMsgNorms⟩,
    ⟨fun p => strIncludes p "recent emails" || strIncludes p "email",
     fun _ => demoMsgEmails⟩,
    ⟨fun p => strIncludes p "documents on SharePoint" || strIncludes p "SharePoint" ||
        strIncludes p "OneDrive",
     fun _ => demoMsgSharePoint⟩,
    ⟨fun p => strIncludes p "onboarding specialist" || strIncludes p "Welcome to",
     fun p => generateDemoGuide p⟩ ]

/-- First-match-wins dispatch over a rule list, defaulting to `"[]"`. -/
def dispatchRules : List DemoRule → String → String
  | [], _ => "[]"
  | r :: rest, p => if r.test p then r.respond p else dispatchRules rest p


/-! Helper lemmas. -/

/-- The `jlist` and `JsonList.toList` are inverse. -/
theorem toList_jlist (xs : List Json) : (jlist xs).toList = xs := by
  induction xs with
  | nil => rfl
  | cons x rest ih => simp [jlist, JsonList.toList, ih]

/-- Elements of `Json.arrOf`. -/
theorem elems_arrOf (xs : List Json) : (Json.arrOf xs).elems = xs := by
  simp [Json.arrOf, Json.elems, toList_jlist]

/-- The `prefixTest` decides the prefix relation. -/
theorem prefixTest_iff (p s : List Char) :
    prefixTest p s = true ↔ ∃ t, s = p ++ t := by
  induction p generalizing s with
  | nil => simp [prefixTest]
  | cons a as ih =>
    cases s with
    | nil =>
      simp [prefixTest]
    | cons b bs =>
      simp only [prefixTest, Bool.and_eq_true, decide_eq_true_eq, ih,
        List.cons_append, List.cons.injEq]
      constructor
      · rintro ⟨rfl, t, rfl⟩
        exact ⟨t, rfl, rfl⟩
      · rintro ⟨t, rfl, rfl⟩
        exact ⟨rfl, t, rfl⟩

/-- The `containsChars` decides the substring relation. -/
theorem containsChars_iff (n h : List Char) :
    containsChars n h = true ↔ ∃ l r, h = l ++ n ++ r := by
  induction h with
  | nil =>
    simp only [containsChars, prefixTest_iff]
    constructor
    · rintro ⟨t, ht⟩
      exact ⟨[], t, by simpa using ht⟩
    · rintro ⟨l, r, hlr⟩
      rcases List.append_eq_nil.mp (List.append_eq_nil.mp hlr.symm).1 with ⟨rfl, rfl⟩
      exact ⟨r, by simpa using hlr⟩
  | cons c rest ih =>
    simp only [containsChars, Bool.or_eq_true, prefixTest_iff, ih]
    constructor
    · rintro (⟨t, ht⟩ | ⟨l, r, rfl⟩)
      · exact ⟨[], t, by simpa using ht⟩
      · exact ⟨c :: l, r, rfl⟩
    · rintro ⟨l, r, hlr⟩
      cases l with
      | nil => exact Or.inl ⟨r, by simpa using hlr⟩
      | cons x l' =>
        rcases List.cons.injEq .. ▸ hlr with ⟨rfl, h'⟩
        exact Or.inr ⟨l', r, h'⟩

/-- Membership in the JavaScript-`Set` deduplication. -/
theorem mem_jsSetDedupAux (x : String) (seen l : List String) :
    x ∈ jsSetDedupAux seen l ↔ x ∈ l ∧ x ∉ seen := by
  induction l generalizing seen with
  | nil => simp [jsSetDedupAux]
  | cons y rest ih =>
    by_cases hy : y ∈ seen
    · rw [jsSetDedupAux, if_pos hy, ih]
      constructor
      · rintro ⟨hm, hn⟩
        exact ⟨List.mem_cons_of_mem _ hm, hn⟩
      · rintro ⟨hm, hn⟩
        rcases List.mem_cons.mp hm with rfl | hm'
        · exact absurd hy hn
        · exact ⟨hm', hn⟩
    · rw [jsSetDedupAux, if_neg hy]
      constructor
      · intro hmem
        rcases List.mem_cons.mp hmem with rfl | hm'
        · exact ⟨List.mem_cons_self _ _, hy⟩
        · rcases (ih _).mp hm' with ⟨hm, hn⟩
          exact ⟨List.mem_cons_of_mem _ hm,
            fun hs => hn (List.mem_cons_of_mem _ hs)⟩
      · rintro ⟨hm, hn⟩
        rcases List.mem_cons.mp hm with rfl | hm'
        · exact List.mem_cons_self _ _
        · by_cases hxy : x = y
          · subst hxy
            exact List.mem_cons_self _ _
          · refine List.mem_cons_of_mem _ ((ih _).mpr ⟨hm', fun hs => ?_⟩)
            rcases List.mem_cons.mp hs with h | h
            · exact hxy h
            · exact hn h

/-- Membership after deduplication. -/
theorem mem_jsSetDedup (x : String) (l : List String) :
    x ∈ jsSetDedup l ↔ x ∈ l := by
  simp [jsSetDedup, mem_jsSetDedupAux]

/-- The `lookupFile` after `setFile` at the same path. -/
theorem lookupFile_setFile (files : List (String × String)) (path content : String) :
    lookupFile (setFile files path content) path = some content := by
  induction files with
  | nil => simp [setFile, lookupFile]
  | cons e rest ih =>
    rcases e with ⟨q, d⟩
    by_cases hq : q = path
    · simp [setFile, lookupFile, hq]
    · simp [setFile, lookupFile, hq, ih]

/-- The `setFile` over an existing path does not grow the file table. -/
theorem length_setFile_of_lookup (files : List (String × String)) (path c d : String)
    (h : lookupFile files path = some d) :
    (setFile files path c).length = files.length := by
  induction files with
  | nil => simp [lookupFile] at h
  | cons e rest ih =>
    rcases e with ⟨q, d'⟩
    by_cases hq : q = path
    · simp [setFile, hq]
    · simp only [lookupFile, if_neg hq] at h
      simp [setFile, hq, ih h]

/-- Slicing to the first `]` across a decomposed input. -/
theorem takeThroughRBracket_decomp (mid post : List Char) (h : ']' ∉ mid) :
    takeThroughRBracket (mid ++ ']' :: post) = some (mid ++ [']']) := by
  induction mid with
  | nil => simp [takeThroughRBracket]
  | cons c rest ih =>
    have hc : c ≠ ']' := fun hc => h (hc ▸ List.mem_cons_self _ _)
    have hrest : ']' ∉ rest := fun hr => h (List.mem_cons_of_mem _ hr)
    simp [takeThroughRBracket, hc, ih hrest]

/-- The lazy array regex on prose around a bracket group: when the prose
before the group has no `[` and the group's interior has no `]`, the match
is exactly the group. -/
theorem lazyBracketMatch_decomp (pre mid post : List Char)
    (hpre : '[' ∉ pre) (hmid : ']' ∉ mid) :
    lazyBracketMatch (pre ++ '[' :: (mid ++ ']' :: post)) =
      some ('[' :: (mid ++ [']'])) := by
  induction pre with
  | nil => simp [lazyBracketMatch, takeThroughRBracket_decomp mid post hmid]
  | cons c rest ih =>
    have hc : c ≠ '[' := fun hc => hpre (hc ▸ List.mem_cons_self _ _)
    have hrest : '[' ∉ rest := fun hr => hpre (List.mem_cons_of_mem _ hr)
    simp [lazyBracketMatch, hc, ih hrest]

/-- Claim C1, counterexample: the response `"answer: [[1,2],[3,4]]"`
embeds the well-formed JSON arrays `[[1,2],[3,4]]`, `[1,2]` and `[3,4]`,
but the lazy regex slices `[[1,2]`, `JSON.parse` throws on it, and the
extraction answers the fallback `[]`, which is deep-equal to the parse of
none of the embedded arrays. -/
theorem c1_extraction_counterexample :
    extractArrayJs "answer: [[1,2],[3,4]]" (Json.arrOf []) = Json.arrOf [] ∧
    jsonParse "[[1,2],[3,4]]" =
      some (Json.arrOf [Json.arrOf [.num "1", .num "2"],
        Json.arrOf [.num "3", .num "4"]]) ∧
    jsonParse "[1,2]" = some (Json.arrOf [.num "1", .num "2"]) ∧
    jsonParse "[3,4]" = some (Json.arrOf [.num "3", .num "4"]) ∧
    Json.arrOf [] ≠ Json.arrOf [Json.arrOf [.num "1", .num "2"],
      Json.arrOf [.num "3", .num "4"]] ∧
    Json.arrOf [] ≠ Json.arrOf [.num "1", .num "2"] ∧
    Json.arrOf [] ≠ Json.arrOf [.num "3", .num "4"] := by
  refine ⟨rfl, rfl, rfl, rfl, ?_, ?_, ?_⟩ <;> decide

/-- Claim C1, amended: if the prose before the embedded array contains no
`[` and the array text contains no `]` before its closing bracket, then
array-shape extraction returns exactly the parse of the embedded array. -/
theorem c1_extraction_amended (pre mid post : List Char) (v fb : Json)
    (hpre : '[' ∉ pre) (hmid : ']' ∉ mid)
    (hparse : jsonParse (String.mk ('[' :: (mid ++ [']']))) = some v) :
    extractArrayJs (String.mk (pre ++ '[' :: (mid ++ ']' :: post))) fb = v := by
  unfold extractArrayJs
  have hdata : (String.mk (pre ++ '[' :: (mid ++ ']' :: post))).data =
      pre ++ '[' :: (mid ++ ']' :: post) := rfl
  rw [hdata, lazyBracketMatch_decomp pre mid post hpre hmid]
  dsimp only
  rw [hparse]

/-- Claim C1, witness for the amended theorem: prose `"data: "`, array
`[1,2]`, trailing prose `" end"`. -/
theorem c1_extraction_witness :
    extractArrayJs (String.mk ("data: ".data ++ '[' :: ("1,2".data ++ ']' :: " end".data)))
      (Json.arrOf []) = Json.arrOf [.num "1", .num "2"] :=
  c1_extraction_amended "data: ".data "1,2".data " end".data
    (Json.arrOf [.num "1", .num "2"]) (Json.arrOf [])
    (by decide) (by decide) (by decide)

/-- Session that replies `"[oops]"` (a bracket group that is not valid
JSON) to every prompt. -/
def sendOops : Send := fun _ => .ok "[oops]"

/-- Claim C4, counterexample: on a JSON-parse error the documentation-
summaries call returns the non-empty placeholder
`[\x7b file: "README.md", summary: "Could not parse documentation." \x7d]`,
not `[]`. -/
theorem c4_docs_fallback_counterexample :
    getKeyDocuments sendOops "microsoft" "vscode" (Json.arrOf []) =
      .ok docsParseErrorFallback ∧
    docsParseErrorFallback ≠ Json.arrOf [] := by
  exact ⟨rfl, by decide⟩

/-- Claim C4, amended: all five remote calls of the repository collector
share `extractArrayJs`; with the `[]` parse-error fallback (structure,
PRs, issues, discussions) every extraction failure yields `[]`, while with
the `getKeyDocuments` fallback a missing bracket match still yields `[]`
but a JSON-parse error yields the one-element placeholder record. -/
theorem c4_docs_fallback_amended :
    (∀ m : String, lazyBracketMatch m.data = none →
      extractArrayJs m (Json.arrOf []) = Json.arrOf [] ∧
      extractArrayJs m docsParseErrorFallback = Json.arrOf []) ∧
    (∀ (m : String) (sub : List Char), lazyBracketMatch m.data = some sub →
      jsonParse (String.mk sub) = none →
      extractArrayJs m (Json.arrOf []) = Json.arrOf [] ∧
      extractArrayJs m docsParseErrorFallback = docsParseErrorFallback) := by
  constructor
  · intro m hm
    unfold extractArrayJs
    rw [hm]
    exact ⟨rfl, rfl⟩
  · intro m sub hm hp
    unfold extractArrayJs
    rw [hm]
    dsimp only
    rw [hp]
    exact ⟨rfl, rfl⟩

/-- Claim C4, witness: a match-free response and an unparsable bracket
group, pushed through both fallbacks. -/
theorem c4_docs_fallback_witness :
    (extractArrayJs "no brackets here" docsParseErrorFallback = Json.arrOf []) ∧
    (extractArrayJs "[oops]" docsParseErrorFallback = docsParseErrorFallback) :=
  ⟨(c4_docs_fallback_amended.1 "no brackets here" (by decide)).2,
   (c4_docs_fallback_amended.2 "[oops]" "[oops]".data (by decide) (by decide)).2⟩

/-- Claim C6, counterexample: JSON of the wrong shape need not produce the
fallback.  The well-formed non-array object text `\x7b"a": [1,2]\x7d` at
an array-shape site yields the embedded `[1,2]` rather than `[]`, and the
well-formed non-object array text `[\x7b"x": 1\x7d]` at the norms site
yields the embedded object rather than the default-norms record. -/
theorem c6_malformed_fallback_counterexample :
    jsonParse "\x7b\"a\": [1,2]\x7d" =
      some (Json.objOf [("a", Json.arrOf [.num "1", .num "2"])]) ∧
    extractArrayJs "\x7b\"a\": [1,2]\x7d" (Json.arrOf []) =
      Json.arrOf [.num "1", .num "2"] ∧
    Json.arrOf [.num "1", .num "2"] ≠ Json.arrOf [] ∧
    jsonParse "[\x7b\"x\": 1\x7d]" =
      some (Json.arrOf [Json.objOf [("x", .num "1")]]) ∧
    extractNormsJs "[\x7b\"x\": 1\x7d]" = Json.objOf [("x", .num "1")] ∧
    Json.objOf [("x", .num "1")] ≠ getDefaultNorms := by
  exact ⟨rfl, rfl, by decide, rfl, rfl, by decide⟩

/-- Claim C6, amended: extraction never raises (it is a total function
here, mirroring the source's `try`/`catch`), and it returns exactly the
caller-supplied fallback whenever the shape regex finds no match or the
matched substring fails `JSON.parse` — in particular on the empty string;
but well-formed JSON of the wrong shape that embeds a parsable bracket
group of the requested kind returns that group instead. -/
theorem c6_malformed_fallback_amended :
    (∀ m : String, lazyBracketMatch m.data = none →
      extractArrayJs m (Json.arrOf []) = Json.arrOf []) ∧
    (∀ (m : String) (sub : List Char), lazyBracketMatch m.data = some sub →
      jsonParse (String.mk sub) = none →
      extractArrayJs m (Json.arrOf []) = Json.arrOf []) ∧
    (∀ m : String, greedyBraceMatch m.data = none →
      extractNormsJs m = getDefaultNorms) ∧
    (∀ (m : String) (sub : List Char), greedyBraceMatch m.data = some sub →
      jsonParse (String.mk sub) = none →
      extractNormsJs m = getDefaultNorms) ∧
    extractArrayJs "" (Json.arrOf []) = Json.arrOf [] ∧
    extractNormsJs "" = getDefaultNorms := by
  refine ⟨?_, ?_, ?_, ?_, rfl, rfl⟩
  · intro m hm
    unfold extractArrayJs
    rw [hm]
  · intro m sub hm hp
    unfold extractArrayJs
    rw [hm]
    dsimp only
    rw [hp]
  · intro m hm
    unfold extractNormsJs
    rw [hm]
  · intro m sub hm hp
    unfold extractNormsJs
    rw [hm]
    dsimp only
    rw [hp]

/-- Claim C6, witness: the four failure modes on concrete malformed
responses. -/
theorem c6_malformed_fallback_witness :
    extractArrayJs "plain text" (Json.arrOf []) = Json.arrOf [] ∧
    extractArrayJs "see [citation needed] here" (Json.arrOf []) = Json.arrOf [] ∧
    extractNormsJs "no braces at all" = getDefaultNorms ∧
    extractNormsJs "x \x7bnot json\x7d y" = getDefaultNorms :=
  ⟨c6_malformed_fallback_amended.1 "plain text" (by decide),
   c6_malformed_fallback_amended.2.1 "see [citation needed] here"
     "[citation needed]".data (by decide) (by decide),
   c6_malformed_fallback_amended.2.2.1 "no braces at all" (by decide),
   c6_malformed_fallback_amended.2.2.2.1 "x \x7bnot json\x7d y" "\x7bnot json\x7d".data
     (by decide) (by decide)⟩

/-- The file table after `saveGuide` is the old one with the computed
path overwritten. -/
theorem saveGuide_files (outputDir nowIso content owner repo : String) (fs : FS) :
    (saveGuide outputDir nowIso content owner repo fs).2.files =
      setFile fs.files (saveGuide outputDir nowIso content owner repo fs).1 content := by
  unfold saveGuide FS.writeFile FS.mkdirRecursive
  by_cases h : outputDir ∈ fs.dirs <;> simp [h]

/-- The directories after `saveGuide` are those of `mkdirRecursive`. -/
theorem saveGuide_dirs (outputDir nowIso content owner repo : String) (fs : FS) :
    (saveGuide outputDir nowIso content owner repo fs).2.dirs =
      (fs.mkdirRecursive outputDir).dirs := by
  unfold saveGuide FS.writeFile
  rfl

/-- The `mkdirRecursive` makes its directory present. -/
theorem FS.mem_mkdirRecursive (fs : FS) (dir : String) :
    dir ∈ (fs.mkdirRecursive dir).dirs := by
  unfold FS.mkdirRecursive
  by_cases h : dir ∈ fs.dirs <;> simp [h]

/-- Claim C8: the persisted path is
`\x7boutputDir\x7d/onboarding-\x7bowner\x7d-\x7brepo\x7d-\x7bYYYY-MM-DD\x7d.md`
with the date the first ten characters of the current ISO timestamp, the
output directory exists afterwards, and a second same-day run with the
same parameters computes the same path and overwrites the file in place
(content replaced, file table not grown). -/
theorem c8_save_guide_path (outputDir nowIso content1 content2 owner repo : String)
    (fs : FS) :
    (saveGuide outputDir nowIso content1 owner repo fs).1 =
      pathJoin outputDir
        ("onboarding-" ++ owner ++ "-" ++ repo ++ "-" ++ nowIso.take 10 ++ ".md") ∧
    outputDir ∈ (saveGuide outputDir nowIso content1 owner repo fs).2.dirs ∧
    lookupFile (saveGuide outputDir nowIso content1 owner repo fs).2.files
      (saveGuide outputDir nowIso content1 owner repo fs).1 = some content1 ∧
    (saveGuide outputDir nowIso content2 owner repo
      (saveGuide outputDir nowIso content1 owner repo fs).2).1 =
      (saveGuide outputDir nowIso content1 owner repo fs).1 ∧
    lookupFile (saveGuide outputDir nowIso content2 owner repo
        (saveGuide outputDir nowIso content1 owner repo fs).2).2.files
      (saveGuide outputDir nowIso content1 owner repo fs).1 = some content2 ∧
    (saveGuide outputDir nowIso content2 owner repo
        (saveGuide outputDir nowIso content1 owner repo fs).2).2.files.length =
      (saveGuide outputDir nowIso content1 owner repo fs).2.files.length := by
  refine ⟨rfl, ?_, ?_, rfl, ?_, ?_⟩
  · rw [saveGuide_dirs]
    exact FS.mem_mkdirRecursive ..
  · rw [saveGuide_files]
    exact lookupFile_setFile ..
  · rw [saveGuide_files, saveGuide_files]
    exact lookupFile_setFile ..
  · rw [saveGuide_files, saveGuide_files]
    exact length_setFile_of_lookup _ _ _ content1 (lookupFile_setFile ..)

/-- Substring occurrence, as the specification words it. -/
def SubstrOf (needle hay : String) : Prop :=
  ∃ l r, hay.data = l ++ needle.data ++ r

/-- Pattern normalisation as the specification words it: strip the `"*."`
wildcard prefix, drop `"/"`, and lowercase. -/
def specNormalizedPattern (p : String) : String :=
  lowerStr (String.mk
    ((if prefixTest "*.".data p.data then p.data.drop 2 else p.data).filter
      (fun c => c ≠ '/')))

/-- On every pattern of the static table the source normalisation (first-
occurrence `replace`) agrees with the specification normalisation. -/
theorem normalizedPattern_eq_spec :
    ∀ tp ∈ TECH_PATTERNS, ∀ p ∈ tp.2,
      normalizedPattern p = specNormalizedPattern p := by
  decide

/-- The `strIncludes` decides `SubstrOf`. -/
theorem strIncludes_iff (hay needle : String) :
    strIncludes hay needle = true ↔ SubstrOf needle hay := by
  unfold strIncludes SubstrOf
  exact containsChars_iff needle.data hay.data

/-- A JavaScript join of string values is `String.intercalate`. -/
theorem jsJoinList_map_str (sep : String) (l : List String) :
    jsJoinList sep (l.map Json.str) = String.intercalate sep l := by
  unfold jsJoinList
  rw [List.map_map]
  congr 1
  induction l with
  | nil => rfl
  | cons x rest ih => simp [Function.comp, jsJoinElem, jsDisplay, ih]

/-- Claim C5: for every structure listing of path strings,
`detectTechStack` returns exactly the technologies one of whose patterns,
normalised as the specification describes, occurs as a substring of the
lowercased space-joined listing; `"Package.JSON"` detects Node.js, and
`["go.mod", "main.go"]` detects exactly `Go`. -/
theorem c5_detect_tech_stack :
    (∀ (listing : List String) (tech : String),
      tech ∈ detectTechStack (Json.arrOf (listing.map Json.str)) ↔
        ∃ pats, (tech, pats) ∈ TECH_PATTERNS ∧ ∃ p ∈ pats,
          SubstrOf (specNormalizedPattern p)
            (lowerStr (String.intercalate " " listing))) ∧
    "Node.js / JavaScript" ∈ detectTechStack (Json.arrOf [Json.str "Package.JSON"]) ∧
    detectTechStack (Json.arrOf [Json.str "go.mod", Json.str "main.go"]) = ["Go"] := by
  refine ⟨?_, by decide, by decide⟩
  intro listing tech
  simp only [detectTechStack]
  rw [elems_arrOf, jsJoinList_map_str]
  rw [mem_jsSetDedup, List.mem_filterMap]
  constructor
  · rintro ⟨⟨t, pats⟩, htp, hf⟩
    dsimp only at hf
    split at hf
    case isTrue hany =>
      obtain rfl : t = tech := Option.some.inj hf
      rcases List.any_eq_true.mp hany with ⟨p, hp, hinc⟩
      refine ⟨pats, htp, p, hp, ?_⟩
      rw [normalizedPattern_eq_spec (t, pats) htp p hp] at hinc
      exact (strIncludes_iff ..).mp hinc
    case isFalse hany =>
      exact absurd hf (by simp)
  · rintro ⟨pats, htp, p, hp, hsub⟩
    refine ⟨(tech, pats), htp, ?_⟩
    dsimp only
    have hcond : (pats.any fun q =>
        strIncludes (lowerStr (String.intercalate " " listing))
          (normalizedPattern q)) = true :=
      List.any_eq_true.mpr ⟨p, hp, by
        rw [normalizedPattern_eq_spec (tech, pats) htp p hp]
        exact (strIncludes_iff ..).mpr hsub⟩
    rw [if_pos hcond]

/-- First-match-wins dispatch defaults to `"[]"` when no rule matches. -/
theorem dispatchRules_of_no_match (rules : List DemoRule) (p : String)
    (h : (rules.all fun rule => !(rule.test p)) = true) :
    dispatchRules rules p = "[]" := by
  induction rules with
  | nil => rfl
  | cons r rest ih =>
    rw [List.all_cons, Bool.and_eq_true] at h
    rcases h with ⟨hr, hrest⟩
    rw [dispatchRules, if_neg]
    · exact ih hrest
    · simp only [Bool.not_eq_true'] at hr
      simp [hr]

/-- Claim C10: the demo `sendAndWait` is a total pure function of the
prompt (so it never throws or rejects, its `message` field is always a
string, and two calls with the same prompt give identical replies), its
reply is exactly the first-match-wins dispatch over the fixed ordered list
of substring predicates, and when no predicate matches the message is
`"[]"`. -/
theorem c10_demo_session (p : String) :
    (demoSendAndWait p).message = dispatchRules demoRules p ∧
    ((demoRules.all fun rule => !(rule.test p)) = true →
      (demoSendAndWait p).message = "[]") := by
  have corr : (demoSendAndWait p).message = dispatchRules demoRules p := by
    simp only [demoSendAndWait, demoRules, dispatchRules, apply_ite DemoResp.message]
  refine ⟨corr, fun h => ?_⟩
  rw [corr]
  exact dispatchRules_of_no_match demoRules p h

/-- Claim C10, witness: the prompt `"xyzzy"` matches no predicate and gets
the default `"[]"` reply. -/
theorem c10_demo_session_witness :
    (demoSendAndWait "xyzzy").message = "[]" :=
  (c10_demo_session "xyzzy").2 (by decide)

/-! Stage bookkeeping lemmas. -/

/-- A settled chain on a success. -/
theorem stageFold_ok {res : Except String α} {v : α} (h : res = .ok v)
    (fallback : α) (mk : α → StepOutcome) (name : String) :
    stageFold res fallback mk name = (v, [mk v], []) := by
  rw [h]
  rfl

/-- A settled chain on a failure. -/
theorem stageFold_error {res : Except String α} {e : String} (h : res = .error e)
    (fallback : α) (mk : α → StepOutcome) (name : String) :
    stageFold res fallback mk name = (fallback, [], [{ step := name, error := e }]) := by
  rw [h]
  rfl

/-- The step names contributed by one chain. -/
theorem stageFold_names (res : Except String α) (fallback : α)
    (mk : α → StepOutcome) (name : String) (hmk : ∀ v, (mk v).step = name) :
    (stageFold res fallback mk name).2.1.map StepOutcome.step ++
      (stageFold res fallback mk name).2.2.map RunError.step = [name] := by
  cases res <;> simp [stageFold, hmk]

/-- Every success row of a chain carries its stage name. -/
theorem stageFold_steps_name (res : Except String α) (fallback : α)
    (mk : α → StepOutcome) (name : String) (hmk : ∀ v, (mk v).step = name) :
    ∀ st ∈ (stageFold res fallback mk name).2.1, st.step = name := by
  cases res <;> simp [stageFold, hmk]

/-- Every error row of a chain carries its stage name. -/
theorem stageFold_errors_name (res : Except String α) (fallback : α)
    (mk : α → StepOutcome) (name : String) :
    ∀ er ∈ (stageFold res fallback mk name).2.2, er.step = name := by
  cases res <;> simp [stageFold]

/-- Assembling three chains whose rows carry one stage name each gives a
permutation of the three names. -/
theorem names_perm_of_three {s1 s2 s3 : List StepOutcome} {e1 e2 e3 : List RunError}
    {n1 n2 n3 : String}
    (h1 : s1.map StepOutcome.step ++ e1.map RunError.step = [n1])
    (h2 : s2.map StepOutcome.step ++ e2.map RunError.step = [n2])
    (h3 : s3.map StepOutcome.step ++ e3.map RunError.step = [n3]) :
    ((s1 ++ s2 ++ s3).map StepOutcome.step ++
      (e1 ++ e2 ++ e3).map RunError.step).Perm [n1, n2, n3] := by
  rw [List.perm_iff_count]
  intro a
  have c1 := congrArg (List.count a) h1
  have c2 := congrArg (List.count a) h2
  have c3 := congrArg (List.count a) h3
  simp only [List.count_append] at c1 c2 c3
  simp only [List.map_append, List.count_append, List.count_cons, List.count_nil]
  simp only [List.count_cons, List.count_nil] at c1 c2 c3
  omega

/-- The collect phase contributes exactly the three collector names. -/
theorem collectPhase_names (send : Send) (opts : RunOptions) :
    ((collectPhase send opts).steps.map StepOutcome.step ++
      (collectPhase send opts).errors.map RunError.step).Perm
      ["repo-analysis", "docs-fetch", "team-context"] := by
  unfold collectPhase
  dsimp only
  exact names_perm_of_three
    (stageFold_names _ _ _ _ (fun _ => rfl))
    (stageFold_names _ _ _ _ (fun _ => rfl))
    (stageFold_names _ _ _ _ (fun _ => rfl))

/-- Appending one success row with a fresh name extends the name
permutation. -/
theorem names_perm_append_step {s : List StepOutcome} {e : List RunError}
    {ns : List String} {st : StepOutcome} {n : String}
    (h : (s.map StepOutcome.step ++ e.map RunError.step).Perm ns)
    (hst : st.step = n) :
    (((s ++ [st]).map StepOutcome.step) ++ e.map RunError.step).Perm (ns ++ [n]) := by
  rw [List.perm_iff_count]
  intro a
  have hc := (List.perm_iff_count.mp h) a
  simp only [List.count_append] at hc
  simp only [List.map_append, List.count_append, List.map_cons, List.map_nil,
    List.count_cons, List.count_nil, hst]
  omega

/-- Appending one error row with a fresh name extends the name
permutation. -/
theorem names_perm_append_error {s : List StepOutcome} {e : List RunError}
    {ns : List String} {er : RunError} {n : String}
    (h : (s.map StepOutcome.step ++ e.map RunError.step).Perm ns)
    (her : er.step = n) :
    ((s.map StepOutcome.step) ++ (e ++ [er]).map RunError.step).Perm (ns ++ [n]) := by
  rw [List.perm_iff_count]
  intro a
  have hc := (List.perm_iff_count.mp h) a
  simp only [List.count_append] at hc
  simp only [List.map_append, List.count_append, List.map_cons, List.map_nil,
    List.count_cons, List.count_nil, her]
  omega

/-- A full run contributes exactly the four stage names. -/
theorem runOnboardBot_names (send : Send) (outputDir nowIso : String) (fs : FS)
    (opts : RunOptions) :
    (((runOnboardBot send outputDir nowIso fs opts).1.steps.map StepOutcome.step) ++
      ((runOnboardBot send outputDir nowIso fs opts).1.errors.map RunError.step)).Perm
      ["repo-analysis", "docs-fetch", "team-context", "guide-generation"] := by
  unfold runOnboardBot
  dsimp only
  cases hg : generateOnboardingGuide send outputDir nowIso
      (collectPhase send opts).repoAnalysis (collectPhase send opts).learningResources
      (collectPhase send opts).teamContext opts.owner opts.repo opts.newHireName fs with
  | ok p =>
    rcases p with ⟨guide, fs2⟩
    dsimp only
    exact names_perm_append_step (collectPhase_names send opts) rfl
  | error e =>
    dsimp only
    exact names_perm_append_error (collectPhase_names send opts) rfl

/-- The `countOcc` distributes over append. -/
theorem countOcc_append (x : String) (l1 l2 : List String) :
    countOcc x (l1 ++ l2) = countOcc x l1 + countOcc x l2 := by
  simp [countOcc, List.filter_append]

/-- The `countOcc` is invariant under permutation. -/
theorem countOcc_perm {l1 l2 : List String} (h : l1.Perm l2) (x : String) :
    countOcc x l1 = countOcc x l2 :=
  (h.filter _).length_eq

/-- Claim C3: in every run, for every stage name, the number of `steps`
rows plus the number of `errors` rows carrying that name equals its count
among the four attempted stages — so each attempted stage lands in exactly
one of the two lists exactly once, the lists are disjoint by stage name,
and no other name ever appears. -/
theorem c3_step_error_partition (send : Send) (outputDir nowIso : String) (fs : FS)
    (opts : RunOptions) (name : String) :
    countOcc name
        ((runOnboardBot send outputDir nowIso fs opts).1.steps.map StepOutcome.step) +
      countOcc name
        ((runOnboardBot send outputDir nowIso fs opts).1.errors.map RunError.step) =
      countOcc name ["repo-analysis", "docs-fetch", "team-context", "guide-generation"] := by
  rw [← countOcc_append]
  exact countOcc_perm (runOnboardBot_names send outputDir nowIso fs opts) name

/-! Characterisation of a full run. -/

/-- The repo value the collect phase hands downstream, by definition. -/
theorem collectPhase_repoAnalysis_def (send : Send) (opts : RunOptions) :
    (collectPhase send opts).repoAnalysis =
      (stageFold (analyzeRepository send opts.owner opts.repo)
        (defaultRepoAnalysis opts.owner opts.repo) repoStepOutcome "repo-analysis").1 :=
  rfl

/-- A run whose synthesis stage resolves. -/
theorem runOnboardBot_ok {send : Send} {outputDir nowIso : String} {fs : FS}
    {opts : RunOptions} {g : GuideDoc} {fs2 : FS}
    (h : generateOnboardingGuide send outputDir nowIso
      (collectPhase send opts).repoAnalysis (collectPhase send opts).learningResources
      (collectPhase send opts).teamContext opts.owner opts.repo opts.newHireName fs =
      .ok (g, fs2)) :
    (runOnboardBot send outputDir nowIso fs opts).1 =
      { steps := (collectPhase send opts).steps ++ [guideStepOutcome g],
        errors := (collectPhase send opts).errors, guide := some g } := by
  unfold runOnboardBot
  dsimp only
  rw [h]

/-- A run whose synthesis stage throws. -/
theorem runOnboardBot_error {send : Send} {outputDir nowIso : String} {fs : FS}
    {opts : RunOptions} {e : String}
    (h : generateOnboardingGuide send outputDir nowIso
      (collectPhase send opts).repoAnalysis (collectPhase send opts).learningResources
      (collectPhase send opts).teamContext opts.owner opts.repo opts.newHireName fs =
      .error e) :
    (runOnboardBot send outputDir nowIso fs opts).1 =
      { steps := (collectPhase send opts).steps,
        errors := (collectPhase send opts).errors ++
          [{ step := "guide-generation", error := e }],
        guide := none } := by
  unfold runOnboardBot
  dsimp only
  rw [h]

/-- Every step row of the collect phase carries one of the three collector
names. -/
theorem collectPhase_steps_names (send : Send) (opts : RunOptions) :
    ∀ st ∈ (collectPhase send opts).steps,
      st.step = "repo-analysis" ∨ st.step = "docs-fetch" ∨ st.step = "team-context" := by
  unfold collectPhase
  dsimp only
  intro st hst
  rcases List.mem_append.mp hst with h12 | h3
  · rcases List.mem_append.mp h12 with h1 | h2
    · exact Or.inl
        (stageFold_steps_name _ _ repoStepOutcome "repo-analysis" (fun _ => rfl) st h1)
    · exact Or.inr (Or.inl
        (stageFold_steps_name _ _ docsStepOutcome "docs-fetch" (fun _ => rfl) st h2))
  · exact Or.inr (Or.inr
      (stageFold_steps_name _ _ teamStepOutcome "team-context" (fun _ => rfl) st h3))

/-- Every error row of the collect phase carries one of the three
collector names. -/
theorem collectPhase_errors_names (send : Send) (opts : RunOptions) :
    ∀ er ∈ (collectPhase send opts).errors,
      er.step = "repo-analysis" ∨ er.step = "docs-fetch" ∨ er.step = "team-context" := by
  unfold collectPhase
  dsimp only
  intro er her
  rcases List.mem_append.mp her with h12 | h3
  · rcases List.mem_append.mp h12 with h1 | h2
    · exact Or.inl (stageFold_errors_name _ _ repoStepOutcome "repo-analysis" er h1)
    · exact Or.inr (Or.inl (stageFold_errors_name _ _ docsStepOutcome "docs-fetch" er h2))
  · exact Or.inr (Or.inr (stageFold_errors_name _ _ teamStepOutcome "team-context" er h3))

/-- Collect-phase error rows survive into the run result. -/
theorem collectPhase_errors_sub (send : Send) (outputDir nowIso : String) (fs : FS)
    (opts : RunOptions) :
    ∀ er ∈ (collectPhase send opts).errors,
      er ∈ (runOnboardBot send outputDir nowIso fs opts).1.errors := by
  intro er her
  unfold runOnboardBot
  dsimp only
  cases hg : generateOnboardingGuide send outputDir nowIso
      (collectPhase send opts).repoAnalysis (collectPhase send opts).learningResources
      (collectPhase send opts).teamContext opts.owner opts.repo opts.newHireName fs with
  | ok p =>
    rcases p with ⟨g, fs2⟩
    exact her
  | error e =>
    exact List.mem_append_left _ her

/-- Every step row of the run result is a collect-phase row or the
synthesis row. -/
theorem runOnboardBot_steps_cases (send : Send) (outputDir nowIso : String) (fs : FS)
    (opts : RunOptions) :
    ∀ st ∈ (runOnboardBot send outputDir nowIso fs opts).1.steps,
      st ∈ (collectPhase send opts).steps ∨ st.step = "guide-generation" := by
  intro st hst
  revert hst
  unfold runOnboardBot
  dsimp only
  cases hg : generateOnboardingGuide send outputDir nowIso
      (collectPhase send opts).repoAnalysis (collectPhase send opts).learningResources
      (collectPhase send opts).teamContext opts.owner opts.repo opts.newHireName fs with
  | ok p =>
    rcases p with ⟨g, fs2⟩
    intro hst
    rcases List.mem_append.mp hst with h | h
    · exact Or.inl h
    · rcases List.mem_singleton.mp h with rfl
      exact Or.inr rfl
  | error e =>
    intro hst
    exact Or.inl hst

/-- The synthesis stage is attempted in every run: exactly one
`guide-generation` row exists across the two lists. -/
theorem runOnboardBot_guide_attempted (send : Send) (outputDir nowIso : String)
    (fs : FS) (opts : RunOptions) :
    countOcc "guide-generation"
      ((runOnboardBot send outputDir nowIso fs opts).1.steps.map StepOutcome.step ++
        (runOnboardBot send outputDir nowIso fs opts).1.errors.map RunError.step) = 1 := by
  rw [countOcc_perm (runOnboardBot_names send outputDir nowIso fs opts)]
  decide

/-- Collect-phase consequences of a repo-collector throw. -/
theorem collectPhase_repo_error {send : Send} {opts : RunOptions} {e : String}
    (h : analyzeRepository send opts.owner opts.repo = .error e) :
    (collectPhase send opts).repoAnalysis = defaultRepoAnalysis opts.owner opts.repo ∧
    { step := "repo-analysis", error := e } ∈ (collectPhase send opts).errors ∧
    ∀ st ∈ (collectPhase send opts).steps, st.step ≠ "repo-analysis" := by
  unfold collectPhase
  dsimp only
  rw [stageFold_error h]
  refine ⟨rfl, ?_, ?_⟩
  · exact List.mem_append_left _ (List.mem_append_left _ (List.mem_cons_self _ _))
  · intro st hst
    rcases List.mem_append.mp hst with h12 | h3
    · rcases List.mem_append.mp h12 with h1 | h2
      · exact absurd h1 (List.not_mem_nil st)
      · rw [stageFold_steps_name _ _ docsStepOutcome "docs-fetch" (fun _ => rfl) st h2]
        decide
    · rw [stageFold_steps_name _ _ teamStepOutcome "team-context" (fun _ => rfl) st h3]
      decide

/-- Collect-phase consequences of a docs-collector throw. -/
theorem collectPhase_docs_error {send : Send} {opts : RunOptions} {e : String}
    (h : fetchLearningResources send (collectPhase send opts).repoAnalysis.techStack
      (collectPhase send opts).repoAnalysis = .error e) :
    (collectPhase send opts).learningResources = [] ∧
    { step := "docs-fetch", error := e } ∈ (collectPhase send opts).errors ∧
    ∀ st ∈ (collectPhase send opts).steps, st.step ≠ "docs-fetch" := by
  rw [collectPhase_repoAnalysis_def] at h
  unfold collectPhase
  dsimp only
  rw [stageFold_error h]
  refine ⟨rfl, ?_, ?_⟩
  · exact List.mem_append_left _
      (List.mem_append_right _ (List.mem_cons_self _ _))
  · intro st hst
    rcases List.mem_append.mp hst with h12 | h3
    · rcases List.mem_append.mp h12 with h1 | h2
      · rw [stageFold_steps_name _ _ repoStepOutcome "repo-analysis" (fun _ => rfl) st h1]
        decide
      · exact absurd h2 (List.not_mem_nil st)
    · rw [stageFold_steps_name _ _ teamStepOutcome "team-context" (fun _ => rfl) st h3]
      decide

/-- Collect-phase consequences of a team-collector throw. -/
theorem collectPhase_team_error {send : Send} {opts : RunOptions} {e : String}
    (h : gatherTeamContext send (jsOrElse opts.teamName opts.repo)
      (opts.owner ++ "/" ++ opts.repo) = .error e) :
    (collectPhase send opts).teamContext = defaultTeamContextOrch ∧
    { step := "team-context", error := e } ∈ (collectPhase send opts).errors ∧
    ∀ st ∈ (collectPhase send opts).steps, st.step ≠ "team-context" := by
  unfold collectPhase
  dsimp only
  rw [stageFold_error h]
  refine ⟨rfl, ?_, ?_⟩
  · exact List.mem_append_right _ (List.mem_cons_self _ _)
  · intro st hst
    rcases List.mem_append.mp hst with h12 | h3
    · rcases List.mem_append.mp h12 with h1 | h2
      · rw [stageFold_steps_name _ _ repoStepOutcome "repo-analysis" (fun _ => rfl) st h1]
        decide
      · rw [stageFold_steps_name _ _ docsStepOutcome "docs-fetch" (fun _ => rfl) st h2]
        decide
    · exact absurd h3 (List.not_mem_nil st)

/-- Claim C2: for each collector, if it throws (in the model: its
`Except` computation resolves to an error, which is what a rejected
internal `sendAndWait` produces), the run result carries exactly its error
entry, no success row for it, the value handed to the synthesis stage is
the stage's complete default record — never a partially-filled one, since
an error aborts the whole sequential collector — and the synthesis stage
is still attempted (exactly one `guide-generation` row exists). -/
theorem c2_collector_failover :
    (∀ (send : Send) (outputDir nowIso : String) (fs : FS) (opts : RunOptions)
        (e : String),
      analyzeRepository send opts.owner opts.repo = .error e →
      { step := "repo-analysis", error := e } ∈
        (runOnboardBot send outputDir nowIso fs opts).1.errors ∧
      (∀ st ∈ (runOnboardBot send outputDir nowIso fs opts).1.steps,
        st.step ≠ "repo-analysis") ∧
      (collectPhase send opts).repoAnalysis = defaultRepoAnalysis opts.owner opts.repo ∧
      countOcc "guide-generation"
        ((runOnboardBot send outputDir nowIso fs opts).1.steps.map StepOutcome.step ++
          (runOnboardBot send outputDir nowIso fs opts).1.errors.map RunError.step) = 1) ∧
    (∀ (send : Send) (outputDir nowIso : String) (fs : FS) (opts : RunOptions)
        (e : String),
      fetchLearningResources send (collectPhase send opts).repoAnalysis.techStack
          (collectPhase send opts).repoAnalysis = .error e →
      { step := "docs-fetch", error := e } ∈
        (runOnboardBot send outputDir nowIso fs opts).1.errors ∧
      (∀ st ∈ (runOnboardBot send outputDir nowIso fs opts).1.steps,
        st.step ≠ "docs-fetch") ∧
      (collectPhase send opts).learningResources = [] ∧
      countOcc "guide-generation"
        ((runOnboardBot send outputDir nowIso fs opts).1.steps.map StepOutcome.step ++
          (runOnboardBot send outputDir nowIso fs opts).1.errors.map RunError.step) = 1) ∧
    (∀ (send : Send) (outputDir nowIso : String) (fs : FS) (opts : RunOptions)
        (e : String),
      gatherTeamContext send (jsOrElse opts.teamName opts.repo)
          (opts.owner ++ "/" ++ opts.repo) = .error e →
      { step := "team-context", error := e } ∈
        (runOnboardBot send outputDir nowIso fs opts).1.errors ∧
      (∀ st ∈ (runOnboardBot send outputDir nowIso fs opts).1.steps,
        st.step ≠ "team-context") ∧
      (collectPhase send opts).teamContext = defaultTeamContextOrch ∧
      countOcc "guide-generation"
        ((runOnboardBot send outputDir nowIso fs opts).1.steps.map StepOutcome.step ++
          (runOnboardBot send outputDir nowIso fs opts).1.errors.map RunError.step) = 1) := by
  refine ⟨?_, ?_, ?_⟩
  · intro send outputDir nowIso fs opts e h
    obtain ⟨hval, hmem, hsteps⟩ := collectPhase_repo_error h
    refine ⟨collectPhase_errors_sub send outputDir nowIso fs opts _ hmem, ?_, hval,
      runOnboardBot_guide_attempted send outputDir nowIso fs opts⟩
    intro st hst
    rcases runOnboardBot_steps_cases send outputDir nowIso fs opts st hst with hc | hgg
    · exact hsteps st hc
    · rw [hgg]
      decide
  · intro send outputDir nowIso fs opts e h
    obtain ⟨hval, hmem, hsteps⟩ := collectPhase_docs_error h
    refine ⟨collectPhase_errors_sub send outputDir nowIso fs opts _ hmem, ?_, hval,
      runOnboardBot_guide_attempted send outputDir nowIso fs opts⟩
    intro st hst
    rcases runOnboardBot_steps_cases send outputDir nowIso fs opts st hst with hc | hgg
    · exact hsteps st hc
    · rw [hgg]
      decide
  · intro send outputDir nowIso fs opts e h
    obtain ⟨hval, hmem, hsteps⟩ := collectPhase_team_error h
    refine ⟨collectPhase_errors_sub send outputDir nowIso fs opts _ hmem, ?_, hval,
      runOnboardBot_guide_attempted send outputDir nowIso fs opts⟩
    intro st hst
    rcases runOnboardBot_steps_cases send outputDir nowIso fs opts st hst with hc | hgg
    · exact hsteps st hc
    · rw [hgg]
      decide

/-- Claim C7: a synthesis throw is absorbed — the run still returns its
result record (the model is total), with a `guide-generation` error entry,
no `guide` field and no substitute success row; a synthesis success yields
both the success row and the `guide` field. -/
theorem c7_synthesis_guarded :
    (∀ (send : Send) (outputDir nowIso : String) (fs : FS) (opts : RunOptions)
        (e : String),
      generateOnboardingGuide send outputDir nowIso
          (collectPhase send opts).repoAnalysis (collectPhase send opts).learningResources
          (collectPhase send opts).teamContext opts.owner opts.repo opts.newHireName fs =
        .error e →
      (runOnboardBot send outputDir nowIso fs opts).1.guide = none ∧
      { step := "guide-generation", error := e } ∈
        (runOnboardBot send outputDir nowIso fs opts).1.errors ∧
      ∀ st ∈ (runOnboardBot send outputDir nowIso fs opts).1.steps,
        st.step ≠ "guide-generation") ∧
    (∀ (send : Send) (outputDir nowIso : String) (fs : FS) (opts : RunOptions)
        (g : GuideDoc) (fs2 : FS),
      generateOnboardingGuide send outputDir nowIso
          (collectPhase send opts).repoAnalysis (collectPhase send opts).learningResources
          (collectPhase send opts).teamContext opts.owner opts.repo opts.newHireName fs =
        .ok (g, fs2) →
      (runOnboardBot send outputDir nowIso fs opts).1.guide = some g ∧
      guideStepOutcome g ∈ (runOnboardBot send outputDir nowIso fs opts).1.steps) := by
  constructor
  · intro send outputDir nowIso fs opts e h
    rw [runOnboardBot_error h]
    refine ⟨rfl, ?_, ?_⟩
    · exact List.mem_append_right _ (List.mem_cons_self _ _)
    · intro st hst
      rcases collectPhase_steps_names send opts st hst with h1 | h1 | h1 <;>
        (rw [h1]; decide)
  · intro send outputDir nowIso fs opts g fs2 h
    rw [runOnboardBot_ok h]
    exact ⟨rfl, List.mem_append_right _ (List.mem_cons_self _ _)⟩

/-- Claim C9: the `guide` field is present exactly when a successful
`guide-generation` row exists, absent exactly when a `guide-generation`
error entry exists, and when present its `outputPath` is the one recorded
in that row. -/
theorem c9_guide_presence (send : Send) (outputDir nowIso : String) (fs : FS)
    (opts : RunOptions) :
    ((runOnboardBot send outputDir nowIso fs opts).1.guide.isSome = true ↔
      ∃ st ∈ (runOnboardBot send outputDir nowIso fs opts).1.steps,
        st.step = "guide-generation" ∧ st.status = "success") ∧
    ((runOnboardBot send outputDir nowIso fs opts).1.guide = none ↔
      ∃ er ∈ (runOnboardBot send outputDir nowIso fs opts).1.errors,
        er.step = "guide-generation") ∧
    (∀ (g : GuideDoc) (st : StepOutcome),
      (runOnboardBot send outputDir nowIso fs opts).1.guide = some g →
      st ∈ (runOnboardBot send outputDir nowIso fs opts).1.steps →
      st.step = "guide-generation" → st.outputPath = some g.outputPath) := by
  cases hg : generateOnboardingGuide send outputDir nowIso
      (collectPhase send opts).repoAnalysis (collectPhase send opts).learningResources
      (collectPhase send opts).teamContext opts.owner opts.repo opts.newHireName fs with
  | ok p =>
    rcases p with ⟨g, fs2⟩
    rw [runOnboardBot_ok hg]
    refine ⟨?_, ?_, ?_⟩
    · constructor
      · intro _
        exact ⟨guideStepOutcome g,
          List.mem_append_right _ (List.mem_cons_self _ _), rfl, rfl⟩
      · intro _
        rfl
    · constructor
      · intro hnone
        exact absurd hnone (by simp)
      · rintro ⟨er, her, hname⟩
        rcases collectPhase_errors_names send opts er her with h' | h' | h' <;>
          (rw [hname] at h'; exact absurd h' (by decide))
    · intro g' st hsome hst hname
      obtain rfl : g = g' := Option.some.inj hsome
      rcases List.mem_append.mp hst with hc | hguide
      · rcases collectPhase_steps_names send opts st hc with h' | h' | h' <;>
          (rw [hname] at h'; exact absurd h' (by decide))
      · rcases List.mem_singleton.mp hguide with rfl
        rfl
  | error e =>
    rw [runOnboardBot_error hg]
    refine ⟨?_, ?_, ?_⟩
    · constructor
      · intro hs
        exact absurd hs (by simp)
      · rintro ⟨st, hst, hname, -⟩
        rcases collectPhase_steps_names send opts st hst with h' | h' | h' <;>
          (rw [hname] at h'; exact absurd h' (by decide))
    · constructor
      · intro _
        exact ⟨{ step := "guide-generation", error := e },
          List.mem_append_right _ (List.mem_cons_self _ _), rfl⟩
      · intro _
        rfl
    · intro g' st hsome hst hname
      exact absurd hsome (by simp)

/-! Concrete inputs for the witnesses. -/

/-- Options of the witness runs. -/
def witnessOpts : RunOptions :=
  { owner := "microsoft", repo := "vscode", teamName := none, newHireName := none }

/-- Session whose every call throws `"boom"`. -/
def sendFailAll : Send := fun _ => .error "boom"

/-- Session whose every call replies the empty-array text. -/
def sendEmptyArray : Send := fun _ => .ok "[]"

/-- Session that throws only on the team-norms prompt — the fourth of the
six team-collector calls — and otherwise replies the empty-array text. -/
def sendPartialTeams : Send := fun p =>
  if strIncludes p "team norms" then .error "boom" else .ok "[]"

/-- Clock of the witness runs. -/
def witnessNow : String := "2026-02-14T09:30:00.000Z"

/-- Empty file system of the witness runs. -/
def witnessFS : FS := { dirs := [], files := [] }

/-- Guide content produced by `sendEmptyArray` on the witness run. -/
def witnessGuideContent : String :=
  "---\ntitle: \"Onboarding Guide — microsoft/vscode\"\ngenerated_by: \"🤖 OnboardBot — AI-Powered Onboarding Accelerator\"\ngenerated_at: \"2026-02-14T09:30:00.000Z\"\ntech_stack: []\nnew_hire: \"New Team Member\"\n---\n\n[]"

/-- Guide document produced by `sendEmptyArray` on the witness run. -/
def witnessGuide : GuideDoc :=
  { content := witnessGuideContent,
    outputPath := "./onboarding-guides/onboarding-microsoft-vscode-2026-02-14.md" }

/-- File system after the witness run. -/
def witnessFS2 : FS :=
  { dirs := ["./onboarding-guides"],
    files := [("./onboarding-guides/onboarding-microsoft-vscode-2026-02-14.md",
      witnessGuideContent)] }

/-- Claim C2, witness: with every call throwing, the repo and docs
conclusions hold; with only the fourth team call throwing, the whole
team stage still fails over to its complete default record. -/
theorem c2_collector_failover_witness :
    { step := "repo-analysis", error := "boom" } ∈
      (runOnboardBot sendFailAll OUTPUT_DIR_DEFAULT witnessNow witnessFS witnessOpts).1.errors ∧
    (collectPhase sendFailAll witnessOpts).repoAnalysis =
      defaultRepoAnalysis "microsoft" "vscode" ∧
    { step := "docs-fetch", error := "boom" } ∈
      (runOnboardBot sendFailAll OUTPUT_DIR_DEFAULT witnessNow witnessFS witnessOpts).1.errors ∧
    (collectPhase sendFailAll witnessOpts).learningResources = [] ∧
    { step := "team-context", error := "boom" } ∈
      (runOnboardBot sendPartialTeams OUTPUT_DIR_DEFAULT witnessNow witnessFS witnessOpts).1.errors ∧
    (collectPhase sendPartialTeams witnessOpts).teamContext = defaultTeamContextOrch ∧
    countOcc "guide-generation"
      ((runOnboardBot sendPartialTeams OUTPUT_DIR_DEFAULT witnessNow witnessFS witnessOpts).1.steps.map
          StepOutcome.step ++
        (runOnboardBot sendPartialTeams OUTPUT_DIR_DEFAULT witnessNow witnessFS witnessOpts).1.errors.map
          RunError.step) = 1 := by
  obtain ⟨r1, -, r3, -⟩ := c2_collector_failover.1 sendFailAll OUTPUT_DIR_DEFAULT
    witnessNow witnessFS witnessOpts "boom" rfl
  obtain ⟨d1, -, d3, -⟩ := c2_collector_failover.2.1 sendFailAll OUTPUT_DIR_DEFAULT
    witnessNow witnessFS witnessOpts "boom" rfl
  obtain ⟨t1, -, t3, t4⟩ := c2_collector_failover.2.2 sendPartialTeams OUTPUT_DIR_DEFAULT
    witnessNow witnessFS witnessOpts "boom" rfl
  exact ⟨r1, r3, d1, d3, t1, t3, t4⟩

/-- Claim C7, witness: a synthesis throw (`sendFailAll`) and a synthesis
success (`sendEmptyArray`) at concrete inputs. -/
theorem c7_synthesis_guarded_witness :
    (runOnboardBot sendFailAll OUTPUT_DIR_DEFAULT witnessNow witnessFS witnessOpts).1.guide =
      none ∧
    { step := "guide-generation", error := "boom" } ∈
      (runOnboardBot sendFailAll OUTPUT_DIR_DEFAULT witnessNow witnessFS witnessOpts).1.errors ∧
    (runOnboardBot sendEmptyArray OUTPUT_DIR_DEFAULT witnessNow witnessFS witnessOpts).1.guide =
      some witnessGuide ∧
    guideStepOutcome witnessGuide ∈
      (runOnboardBot sendEmptyArray OUTPUT_DIR_DEFAULT witnessNow witnessFS witnessOpts).1.steps := by
  obtain ⟨h1, h2, -⟩ := c7_synthesis_guarded.1 sendFailAll OUTPUT_DIR_DEFAULT witnessNow
    witnessFS witnessOpts "boom" rfl
  obtain ⟨h3, h4⟩ := c7_synthesis_guarded.2 sendEmptyArray OUTPUT_DIR_DEFAULT witnessNow
    witnessFS witnessOpts witnessGuide witnessFS2 rfl
  exact ⟨h1, h2, h3, h4⟩

/-- Claim C9, witness: on the successful witness run the guide is present,
its success row is present, and the row's `outputPath` equals the
guide's. -/
theorem c9_guide_presence_witness :
    (runOnboardBot sendEmptyArray OUTPUT_DIR_DEFAULT witnessNow witnessFS witnessOpts).1.guide =
      some witnessGuide ∧
    guideStepOutcome witnessGuide ∈
      (runOnboardBot sendEmptyArray OUTPUT_DIR_DEFAULT witnessNow witnessFS witnessOpts).1.steps ∧
    (guideStepOutcome witnessGuide).outputPath = some witnessGuide.outputPath := by
  have hsome : (runOnboardBot sendEmptyArray OUTPUT_DIR_DEFAULT witnessNow witnessFS
      witnessOpts).1.guide = some witnessGuide := rfl
  have hmem : guideStepOutcome witnessGuide ∈
      (runOnboardBot sendEmptyArray OUTPUT_DIR_DEFAULT witnessNow witnessFS
        witnessOpts).1.steps := by
    show guideStepOutcome witnessGuide ∈
      (collectPhase sendEmptyArray witnessOpts).steps ++ [guideStepOutcome witnessGuide]
    exact List.mem_append_right _ (List.mem_cons_self _ _)
  exact ⟨hsome, hmem,
    (c9_guide_presence sendEmptyArray OUTPUT_DIR_DEFAULT witnessNow witnessFS
      witnessOpts).2.2 witnessGuide (guideStepOutcome witnessGuide) hsome hmem rfl⟩

end OnboardBot
